import Mathlib

/-!
Verification of the CLARX dark-pattern detection pipeline.

Shallow embedding of the backend modules:

* `backend/detectors/scarcity_detector.py`  (`detect_scarcity`)
* `backend/scraper/timer_refresh_checker.py` (`check_timer_reset`)
* `backend/detector.py`  (`DarkPatternDetector`: the four legacy text
  detectors, `detect_all`, `calculate_trust_score`)
* `backend/scraper/price_extractor.py`
* `backend/detectors/mrp_auth_checker.py`
* `backend/detectors/mrp_inflation_detector.py`
* `backend/detectors/run_all.py`

Text is modelled as `List Char`; Python floats as `Rat` (all constants in
the code are decimal and the claims never depend on binary rounding
artifacts); Python `re.search` is modelled by a small backtracking
matcher over single-character classes and literals, which covers every
pattern appearing in the embedded code.
-/

attribute [local semireducible] Rat.mul Rat.add Rat.sub Rat.inv

/-- Python substring prefix test: `s` is a prefix of `t` (exact chars). -/
def litPref : List Char → List Char → Bool
  | [], _ => true
  | _ :: _, [] => false
  | a :: s, b :: t => a == b && litPref s t

/-- Python `needle in hay` for strings: `containsSub needle hay`. -/
def containsSub (s : List Char) : List Char → Bool
  | [] => litPref s []
  | t :: ts => litPref s (t :: ts) || containsSub s ts

/-- Shorthand: characters of a string literal. -/
def lc (s : String) : List Char := s.data

/-- Matcher continuation: given the remaining text, the number of extra
characters consumed by the rest of the pattern (none on failure). -/
def RxCont : Type := List Char → Option Nat

/-- A pattern piece, written continuation-style so that alternation and
bounded repetition backtrack exactly like Python `re`. -/
def RxPat : Type := RxCont → RxCont

/-- First `some` value of `f` over the list, left to right. -/
def firstSome : List α → (α → Option β) → Option β
  | [], _ => none
  | a :: l, f => match f a with
    | some b => some b
    | none => firstSome l f

/-- Length of the longest prefix of `t` whose characters satisfy `cls`. -/
def leadingRun (cls : Char → Bool) : List Char → Nat
  | [] => 0
  | c :: t => if cls c then leadingRun cls t + 1 else 0

/-- Literal piece of a pattern. -/
def litP (s : List Char) : RxPat := fun k t =>
  if litPref s t then (k (t.drop s.length)).map (fun n => s.length + n) else none

/-- Sequencing of pattern pieces. -/
def seqP (p q : RxPat) : RxPat := fun k => p (q k)

/-- Alternation: alternatives tried in order, backtracking into the next
alternative when the rest of the pattern fails (Python `re` semantics). -/
def altP (ps : List RxPat) : RxPat := fun k t => firstSome ps (fun p => p k t)

/-- Cap a repetition bound by the available run length. -/
def hiCap (hi : Option Nat) (run : Nat) : Nat :=
  match hi with
  | none => run
  | some h => min h run

/-- Candidate repetition counts, in the order backtracking tries them. -/
def repNs (lo m : Nat) (lz : Bool) : List Nat :=
  if lo > m then []
  else (List.range (m - lo + 1)).map (fun j => if lz then lo + j else m - j)

/-- Repetition of a single-character class, between `lo` and `hi` times
(`hi = none` is unbounded).  `lz = true` is lazy (shortest first),
otherwise greedy (longest first), with full backtracking. -/
def repP (cls : Char → Bool) (lo : Nat) (hi : Option Nat) (lz : Bool) : RxPat := fun k t =>
  firstSome (repNs lo (hiCap hi (leadingRun cls t)) lz)
    (fun n => (k (t.drop n)).map (fun r => n + r))

/-- Accepting continuation: end of a pattern. -/
def rxAccept : RxCont := fun _ => some 0

/-- Python `re.search`: leftmost starting index at which the pattern
matches, with the matched length. -/
def searchAux (m : RxCont) (i : Nat) : List Char → Option (Nat × Nat)
  | [] => (m []).map (fun n => (i, n))
  | c :: t' =>
    match m (c :: t') with
    | some n => some (i, n)
    | none => searchAux m (i + 1) t'

/-- `re.search` for a full pattern. -/
def searchPat (p : RxPat) (t : List Char) : Option (Nat × Nat) :=
  searchAux (p rxAccept) 0 t

/-- `match.group(0)`: the matched substring. -/
def mstr (t : List Char) (i n : Nat) : List Char := (t.drop i).take n

/-- Python `\s` (ASCII whitespace, all inputs in this code are ASCII text
plus the rupee sign). -/
def pyWs (c : Char) : Bool :=
  c == ' ' || c == '\t' || c == '\n' || c == '\r' || c == '\x0b' || c == '\x0c'

/-- Python `\d` on ASCII text. -/
def pyDigit (c : Char) : Bool := '0' ≤ c && c ≤ '9'

/-- Python `\w` on ASCII text. -/
def pyWord (c : Char) : Bool :=
  ('a' ≤ c && c ≤ 'z') || ('A' ≤ c && c ≤ 'Z') || pyDigit c || c == '_'

/-- `\s+` -/
def ws1P : RxPat := repP pyWs 1 none false

/-- `\s*` -/
def ws0P : RxPat := repP pyWs 0 none false

/-- `\d+` -/
def dig1P : RxPat := repP pyDigit 1 none false

/-- An optional single character, greedy (`c?`). -/
def optCharP (c : Char) : RxPat := repP (fun x => x == c) 0 (some 1) false


/-! ### `backend/detectors/scarcity_detector.py` -/

/-- The tail alternation `(left|remaining|in\s+stock)` shared by
patterns 1, 2, 3 of `detect_scarcity`. -/
def stockTailP : RxPat :=
  altP [litP (lc "left"), litP (lc "remaining"),
    seqP (litP (lc "in")) (seqP ws1P (litP (lc "stock")))]

/-- Pattern 1: `(only\s+\d+\s+(left|remaining|in\s+stock))`. -/
def scP1 : RxPat :=
  seqP (litP (lc "only")) (seqP ws1P (seqP dig1P (seqP ws1P stockTailP)))

/-- Pattern 2: `(\d+\s+(left|remaining|in\s+stock))`. -/
def scP2 : RxPat := seqP dig1P (seqP ws1P stockTailP)

/-- Pattern 3: `(few\s+(left|remaining|in\s+stock))`. -/
def scP3 : RxPat := seqP (litP (lc "few")) (seqP ws1P stockTailP)

/-- The inner alternation of patterns 5 and 6:
`(only\s+\d+|few|low\s+stock|\d+\s+(left|remaining|in\s+stock))`. -/
def scUrgAltP : RxPat :=
  altP [seqP (litP (lc "only")) (seqP ws1P dig1P), litP (lc "few"),
    seqP (litP (lc "low")) (seqP ws1P (litP (lc "stock"))), scP2]

/-- `[^.]{0,80}?` (lazy). -/
def noDot80P : RxPat := repP (fun c => !(c == '.')) 0 (some 80) true

/-- `[^.]{0,50}?` (lazy). -/
def noDot50P : RxPat := repP (fun c => !(c == '.')) 0 (some 50) true

/-- Pattern 5: `(selling\s+fast[^.]{0,80}?(only\s+\d+|few|low\s+stock|\d+\s+(left|remaining|in\s+stock)))`. -/
def scP5 : RxPat :=
  seqP (litP (lc "selling")) (seqP ws1P (seqP (litP (lc "fast")) (seqP noDot80P scUrgAltP)))

/-- Pattern 6: `(hurry[^.]{0,80}?(only\s+\d+|few|low\s+stock|\d+\s+(left|remaining|in\s+stock)))`. -/
def scP6 : RxPat := seqP (litP (lc "hurry")) (seqP noDot80P scUrgAltP)

/-- Pattern 7: `(limited\s+stock[^.]{0,50}?(\d+|few|left|remaining))`. -/
def scP7 : RxPat :=
  seqP (litP (lc "limited")) (seqP ws1P (seqP (litP (lc "stock"))
    (seqP noDot50P (altP [dig1P, litP (lc "few"), litP (lc "left"), litP (lc "remaining")]))))

/-- Pattern 8: `(\d+\s+(items?|units?)\s+(left|remaining))`. -/
def scP8 : RxPat :=
  seqP dig1P (seqP ws1P
    (seqP (altP [seqP (litP (lc "item")) (optCharP 's'), seqP (litP (lc "unit")) (optCharP 's')])
      (seqP ws1P (altP [litP (lc "left"), litP (lc "remaining")]))))

/-- Pattern 4 core: `low\s+stock` followed by a word-boundary check
(the closing `\b`; the opening `\b` is handled by the search loop). -/
def scP4core : RxCont :=
  seqP (litP (lc "low")) (seqP ws1P (litP (lc "stock")))
    (fun t => match t with
      | [] => some 0
      | c :: _ => if pyWord c then none else some 0)

/-- Search loop for pattern 4, tracking the previous character so the
opening `\b` only fires at position 0 or after a non-word character. -/
def searchP4Aux (prev : Option Char) (i : Nat) : List Char → Option (Nat × Nat)
  | [] =>
    if (match prev with | none => true | some c => !pyWord c) then
      (scP4core []).map (fun n => (i, n))
    else none
  | c :: t' =>
    match (if (match prev with | none => true | some c => !pyWord c) then scP4core (c :: t') else none) with
    | some n => some (i, n)
    | none => searchP4Aux (some c) (i + 1) t'

/-- `re.search` for pattern 4: `\b(low\s+stock)\b`. -/
def searchP4 (t : List Char) : Option (Nat × Nat) := searchP4Aux none 0 t

/-- Accumulated state of `detect_scarcity`: the `matches` list and the
`confidence` variable (`None` initially). -/
def ScState : Type := List (List Char) × Option String

/-- One guarded step of `detect_scarcity`: if the pattern matched and the
matched string is not already in `matches`, append it and update
`confidence` with `upd`. -/
def scStep (st : ScState) (mo : Option (List Char)) (upd : Option String → Option String) : ScState :=
  match mo with
  | none => st
  | some m => if m ∈ st.1 then st else (st.1 ++ [m], upd st.2)

/-- A step with an extra content guard on the matched string (the
`if "left" in match_text or ...` checks of patterns 5, 6, 7). -/
def scStepG (st : ScState) (mo : Option (List Char)) (g : List Char → Bool)
    (upd : Option String → Option String) : ScState :=
  match mo with
  | none => st
  | some m => if g m then scStep st (some m) upd else st

/-- `if confidence != "high": confidence = "medium"` (patterns 4-7). -/
def confKeepHigh (c : Option String) : Option String :=
  if c == some "high" then c else some "medium"

/-- The matched substring of a search result. -/
def foundStr (t : List Char) (r : Option (Nat × Nat)) : Option (List Char) :=
  r.map (fun p => mstr t p.1 p.2)

/-- Guard of pattern 5: `"left" in m or "remaining" in m or "stock" in m
or re.search(r'\d+', m)`. -/
def scGuard5 (m : List Char) : Bool :=
  containsSub (lc "left") m || containsSub (lc "remaining") m ||
    containsSub (lc "stock") m || m.any pyDigit

/-- Guard of pattern 6: `"left" in m or "remaining" in m or "stock" in m`. -/
def scGuard6 (m : List Char) : Bool :=
  containsSub (lc "left") m || containsSub (lc "remaining") m || containsSub (lc "stock") m

/-- Guard of pattern 7: `re.search(r'\d+|few|left|remaining', m)`. -/
def scGuard7 (m : List Char) : Bool :=
  m.any pyDigit || containsSub (lc "few") m || containsSub (lc "left") m ||
    containsSub (lc "remaining") m

/-- Stages 2 through 8 of `detect_scarcity`, applied to the state left by
pattern 1. -/
def scAfter1 (text : List Char) (st : ScState) : ScState :=
  let st2 := scStep st (foundStr text (searchPat scP2 text)) (fun _ => some "high")
  let st3 := scStep st2 (foundStr text (searchPat scP3 text)) (fun _ => some "medium")
  let st4 := scStep st3 (foundStr text (searchP4 text)) confKeepHigh
  let st5 := scStepG st4 (foundStr text (searchPat scP5 text)) scGuard5 confKeepHigh
  let st6 := scStepG st5 (foundStr text (searchPat scP6 text)) scGuard6 confKeepHigh
  let st7 := scStepG st6 (foundStr text (searchPat scP7 text)) scGuard7 confKeepHigh
  scStep st7 (foundStr text (searchPat scP8 text)) (fun _ => some "high")

/-- Result record of `detect_scarcity`.  The Python function returns a
dict; `confidence` is `none` exactly when the key is absent
(non-detected case). -/
structure ScarcityResult where
  detected : Bool
  stype : String
  matchList : List (List Char)
  confidence : Option String
  explanation : String
deriving DecidableEq

/-- `detect_scarcity(html)` from `backend/detectors/scarcity_detector.py`:
`text = html.lower()`, then eight regex stages accumulating `matches`
and `confidence`, then `detected = bool(matches)` with final confidence
`confidence or "medium"`. -/
def detect_scarcity (html : List Char) : ScarcityResult :=
  let text := html.map Char.toLower
  let st1 : ScState :=
    match foundStr text (searchPat scP1 text) with
    | some m => ([m], some "high")
    | none => ([], none)
  let st := scAfter1 text st1
  if st.1.isEmpty then
    { detected := false, stype := "scarcity", matchList := [],
      confidence := none,
      explanation := "No stock-related scarcity patterns found. Normal product details are safe." }
  else
    { detected := true, stype := "scarcity", matchList := st.1,
      confidence := some ((st.2).getD "medium"),
      explanation := "This site shows low-stock messages such as: 'Only X left'. These are commonly used to create artificial urgency." }

/-! ### `backend/scraper/timer_refresh_checker.py` -/

/-- The decision core of `check_timer_reset` (lines 60-71): given the two
extracted timer values (`None` when extraction failed), decide whether
the timer is suspicious.  The surrounding fetch code and the final
`except` clause return `False` on any failure, which corresponds to the
`none` branches here. -/
def check_timer_reset_cmp (t1 t2 : Option Int) : Bool :=
  match t1, t2 with
  | some a, some b =>
    if b > a then true
    else if a - b > 10 then true
    else if (a - b).natAbs < 1 then true
    else false
  | _, _ => false

/-! ### `backend/detector.py` -/

/-- Evidence view of a parsed page, as consumed by the
`DarkPatternDetector` methods: the visible text (`soup.get_text()`), the
parent texts of checked checkboxes (`find_all('input', checked)` then
`find_parent().get_text()`, for inputs that have a parent; elements with
`checked="checked"` appear twice, matching the two `find_all` calls),
the texts of pre-selected `option` elements, and the raw `str(elem)` of
small/fine-print elements (`find_all(['small','span'], class_=small|fine|print|hidden)`). -/
structure Soup where
  text : List Char
  checkedParentTexts : List (List Char)
  selectedOptionTexts : List (List Char)
  smallPrintStrs : List (List Char)

/-- Keyword list of `detect_fake_scarcity`. -/
def scarcityKeywords : List String :=
  ["only", "left in stock", "hurry", "selling fast", "limited stock",
   "only a few left", "almost gone", "last few items", "limited time",
   "stock running out", "be quick"]

/-- `\d{1,2}:\d{2}:\d{2}` -/
def timerDigitsP : RxPat :=
  seqP (repP pyDigit 1 (some 2) false) (seqP (litP (lc ":"))
    (seqP (repP pyDigit 2 (some 2) false) (seqP (litP (lc ":")) (repP pyDigit 2 (some 2) false))))

/-- `only\s+(\d+)\s+left` -/
def invP1 : RxPat :=
  seqP (litP (lc "only")) (seqP ws1P (seqP dig1P (seqP ws1P (litP (lc "left")))))

/-- `(\d+)\s+in\s+stock` -/
def invP2 : RxPat :=
  seqP dig1P (seqP ws1P (seqP (litP (lc "in")) (seqP ws1P (litP (lc "stock")))))

/-- `only\s+(\d+)\s+available` -/
def invP3 : RxPat :=
  seqP (litP (lc "only")) (seqP ws1P (seqP dig1P (seqP ws1P (litP (lc "available")))))

/-- Result of one legacy detector in `detector.py`.  A non-detected
Python dict carries only `detected=False`; the other fields here then
hold the defaults that `detect_all` would read via `.get`, which is
observationally identical because `detect_all` reads them only when
`detected` is true (and every detected dict sets them). -/
structure LegacyResult where
  detected : Bool
  severity : String
  confidence : String
  explanation : String
deriving DecidableEq

/-- `DarkPatternDetector.detect_fake_scarcity`: at least two scarcity
keywords, or a timer digit pattern together with an urgency word, or an
inventory-number pattern. -/
def detect_fake_scarcity (soup : Soup) : LegacyResult :=
  let text := soup.text.map Char.toLower
  let foundKeywords := scarcityKeywords.filter (fun kw => containsSub (lc kw) text)
  let timerWithScarcity :=
    (searchPat timerDigitsP text).isSome &&
      (["only", "left", "hurry", "limited"].any (fun kw => containsSub (lc kw) text))
  let inventoryFound := [invP1, invP2, invP3].any (fun p => (searchPat p text).isSome)
  let detected := foundKeywords.length ≥ 2 || timerWithScarcity || inventoryFound
  if detected then
    let confidence := if timerWithScarcity && inventoryFound then "high" else "medium"
    let severity := if confidence == "high" then "high" else "medium"
    let explanation :=
      if inventoryFound then
        "Scarcity messaging detected with inventory claims that may reset on refresh."
      else "Countdown resets on every refresh with identical inventory text."
    { detected := true, severity := severity, confidence := confidence,
      explanation := explanation }
  else
    { detected := false, severity := "medium", confidence := "medium",
      explanation := "Scarcity indicators detected" }

/-- Fee keyword list of `detect_drip_pricing`. -/
def feeKeywords : List String :=
  ["handling fee", "processing fee", "convenience fee", "service charge",
   "delivery charge", "shipping fee", "taxes extra", "gst extra"]

/-- `DarkPatternDetector.detect_drip_pricing`: fee keywords in a checkout
context, or fee keywords inside small-print elements. -/
def detect_drip_pricing (soup : Soup) : LegacyResult :=
  let text := soup.text.map Char.toLower
  let feeMentions := feeKeywords.filter (fun kw => containsSub (lc kw) text)
  let hasCheckoutContext :=
    ["checkout", "cart", "payment", "billing"].any (fun kw => containsSub (lc kw) text)
  let hiddenFees :=
    soup.smallPrintStrs.any (fun e =>
      feeKeywords.any (fun kw => containsSub (lc kw) (e.map Char.toLower)))
  let detected := (feeMentions.length > 0 && hasCheckoutContext) || hiddenFees
  if detected then
    let confidence := if hiddenFees then "high" else "medium"
    let explanation :=
      if hiddenFees then
        "Fees mentioned in small print or hidden sections, revealed only at checkout."
      else "An extra handling fee appears only after address confirmation."
    { detected := true, severity := "medium", confidence := confidence,
      explanation := explanation }
  else
    { detected := false, severity := "medium", confidence := "medium",
      explanation := "Hidden fees detected" }

/-- Add-on keyword list of `detect_pre_ticked_addons`. -/
def addonKeywords : List String :=
  ["warranty", "insurance", "protection", "extended", "add-on", "accessory"]

/-- `DarkPatternDetector.detect_pre_ticked_addons`: checked checkboxes
whose parent text, or selected options whose text, mention an add-on
keyword.  Severity is always `"low"` when detected. -/
def detect_pre_ticked_addons (soup : Soup) : LegacyResult :=
  let fromBoxes := soup.checkedParentTexts.filterMap (fun pt =>
    let ptl := pt.map Char.toLower
    if addonKeywords.any (fun kw => containsSub (lc kw) ptl) then some (ptl.take 100) else none)
  let fromOpts := soup.selectedOptionTexts.filterMap (fun ot =>
    let otl := ot.map Char.toLower
    if addonKeywords.any (fun kw => containsSub (lc kw) otl) then some otl else none)
  let preTicked := fromBoxes ++ fromOpts
  if preTicked.length > 0 then
    { detected := true, severity := "low",
      confidence := if preTicked.length ≥ 2 then "high" else "medium",
      explanation := "Extended warranty checkbox is enabled by default." }
  else
    { detected := false, severity := "low", confidence := "medium",
      explanation := "Add-ons selected by default" }

/-- `no thanks.*(?:i don'?t want|i'?ll pass)` -/
def shamP1 : RxPat :=
  seqP (litP (lc "no thanks")) (seqP (repP (fun c => !(c == '\n')) 0 none false)
    (altP [seqP (litP (lc "i don")) (seqP (optCharP '\'') (litP (lc "t want"))),
      seqP (litP (lc "i")) (seqP (optCharP '\'') (litP (lc "ll pass")))]))

/-- `(?:decline|skip).*savings` -/
def shamP2 : RxPat :=
  seqP (altP [litP (lc "decline"), litP (lc "skip")])
    (seqP (repP (fun c => !(c == '\n')) 0 none false) (litP (lc "savings")))

/-- `no.*(?:i'?m not interested|not for me)` -/
def shamP3 : RxPat :=
  seqP (litP (lc "no")) (seqP (repP (fun c => !(c == '\n')) 0 none false)
    (altP [seqP (litP (lc "i")) (seqP (optCharP '\'') (litP (lc "m not interested"))),
      litP (lc "not for me")]))

/-- Shaming keyword list (with the apostrophes of the source built in). -/
def shamingKeywords : List (List Char) :=
  [lc "no thanks, i don" ++ ['\''] ++ lc "t want savings",
   lc "decline offer",
   lc "skip this deal",
   lc "i" ++ ['\''] ++ lc "ll pass on savings"]

/-- `DarkPatternDetector.detect_confirm_shaming`. -/
def detect_confirm_shaming (soup : Soup) : LegacyResult :=
  let text := soup.text.map Char.toLower
  let detected :=
    ([shamP1, shamP2, shamP3].any (fun p => (searchPat p text).isSome)) ||
      (shamingKeywords.any (fun kw => containsSub kw text))
  if detected then
    { detected := true, severity := "low", confidence := "medium",
      explanation := "Manipulative language used to pressure users into accepting offers." }
  else
    { detected := false, severity := "low", confidence := "medium",
      explanation := "Manipulative language detected" }

/-- The `timer_analysis` entry of the scraper result, as read by
`detect_all`: `timer_analysis.get('fake_timer')` and
`timer_analysis.get('confidence', 'medium')`. -/
structure TimerAnalysis where
  fake_timer : Bool
  confidence : String

/-- One violation dict as appended by `detect_all`. -/
structure Violation where
  vtype : String
  title : String
  severity : String
  confidence : String
  explanation : String
  snippet : String
deriving DecidableEq

/-- `DarkPatternDetector.detect_all`: run the four text detectors plus
the scraper timer analysis, in source order, appending one violation
dict per detected pattern. -/
def detect_all (soup : Soup) (timer_analysis : TimerAnalysis) : List Violation :=
  let scarcity := detect_fake_scarcity soup
  let v1 : List Violation :=
    if scarcity.detected then
      [{ vtype := "fake_scarcity", title := "Fake Scarcity",
         severity := scarcity.severity, confidence := scarcity.confidence,
         explanation := scarcity.explanation, snippet := "" }]
    else []
  let v2 : List Violation :=
    if timer_analysis.fake_timer then
      [{ vtype := "fake_timer", title := "Fake Timer", severity := "high",
         confidence := timer_analysis.confidence,
         explanation := "Timer script is purely client-side and restarts per session.",
         snippet := "" }]
    else []
  let drip := detect_drip_pricing soup
  let v3 : List Violation :=
    if drip.detected then
      [{ vtype := "drip_pricing", title := "Drip Pricing",
         severity := drip.severity, confidence := drip.confidence,
         explanation := drip.explanation, snippet := "" }]
    else []
  let preTicked := detect_pre_ticked_addons soup
  let v4 : List Violation :=
    if preTicked.detected then
      [{ vtype := "pre_ticked_addon", title := "Pre-Ticked Add-On",
         severity := preTicked.severity, confidence := preTicked.confidence,
         explanation := preTicked.explanation, snippet := "" }]
    else []
  let shaming := detect_confirm_shaming soup
  let v5 : List Violation :=
    if shaming.detected then
      [{ vtype := "confirm_shaming", title := "Confirm Shaming",
         severity := shaming.severity, confidence := shaming.confidence,
         explanation := shaming.explanation, snippet := "" }]
    else []
  v1 ++ v2 ++ v3 ++ v4 ++ v5

/-- Weight table of `calculate_trust_score` (`weights.get(vtype, 1)`). -/
def weightOf (t : String) : Rat :=
  if t = "pre_ticked_addon" then 2
  else if t = "fake_timer" then 2
  else if t = "drip_pricing" then 1
  else if t = "fake_scarcity" then 1
  else if t = "confirm_shaming" then 1
  else 1

/-- Severity multiplier (`{"high":1.5,"medium":1.0,"low":0.5}.get(sev, 1.0)`). -/
def sevMultOf (s : String) : Rat :=
  if s = "high" then 3 / 2
  else if s = "medium" then 1
  else if s = "low" then 1 / 2
  else 1

/-- Result of `calculate_trust_score`. -/
structure TrustScore where
  grade : String
  summary : String
  score : Rat
deriving DecidableEq

/-- The grade ladder of `calculate_trust_score`, applied to the total. -/
def trustFromTotal (total : Rat) : TrustScore :=
  if total = 0 then { grade := "A", summary := "Low Risk", score := total }
  else if total ≤ 2 then { grade := "B", summary := "Moderate Risk", score := total }
  else if total ≤ 4 then { grade := "C", summary := "High Manipulation Detected", score := total }
  else if total ≤ 6 then { grade := "D", summary := "High Manipulation Detected", score := total }
  else { grade := "F", summary := "Critical Manipulation", score := total }

/-- `DarkPatternDetector.calculate_trust_score`: weighted severity sum
over the violations, then the grade ladder. -/
def calculate_trust_score (violations : List Violation) : TrustScore :=
  trustFromTotal
    (violations.foldl (fun acc v => acc + weightOf v.vtype * sevMultOf v.severity) 0)

/-! ### Python helpers: truthiness and rounding -/

/-- Python truthiness of an optional number: `None` and `0` are falsy. -/
def pyFalsy (o : Option Rat) : Bool :=
  match o with
  | none => true
  | some x => x == 0

/-- Python `max` of two numbers (ties keep the first argument). -/
def pyMax2 (x y : Rat) : Rat := if x < y then y else x

/-- Python `max(list)`: `none` on the empty list. -/
def pyMaxList : List Rat → Option Rat
  | [] => none
  | a :: as => some (as.foldl pyMax2 a)

/-- Python `min` of two numbers (ties keep the first argument). -/
def pyMin2 (x y : Rat) : Rat := if y < x then y else x

/-- Python `min(list)`: `none` on the empty list. -/
def pyMinList : List Rat → Option Rat
  | [] => none
  | a :: as => some (as.foldl pyMin2 a)

/-- `float(x) if x else None`: collapse a falsy value to `None`. -/
def pyTruthyOpt (o : Option Rat) : Option Rat :=
  if pyFalsy o then none else o

/-- Floor of a rational, kernel-computable. -/
def ratFloor (q : Rat) : Int := Int.fdiv q.num q.den

/-- Python `round` to an integer (banker's rounding, exact on `Rat`;
the source applies it to decimal constants where binary float artifacts
do not change any value used in a claim). -/
def pyRound0 (q : Rat) : Int :=
  let f : Int := ratFloor q
  let r : Rat := q - f
  if r < 1 / 2 then f
  else if r > 1 / 2 then f + 1
  else if f % 2 = 0 then f else f + 1

/-- Python `round(q, n)`. -/
def pyRoundN (n : Nat) (q : Rat) : Rat :=
  (pyRound0 (q * (10 : Rat) ^ n) : Rat) / (10 : Rat) ^ n

/-! ### `backend/detectors/mrp_inflation_detector.py` -/

/-- Result dict of `detect_mrp_inflation`.  `mrpOverPrice` models the
`"ratio"` entry, present only in the comparison branch. -/
structure MrpInflationResult where
  rtype : String
  detected : Bool
  inflation_level : String
  mrp : Option Rat
  price : Option Rat
  mrpOverPrice : Option Rat
  message : String
deriving DecidableEq

/-- `detect_mrp_inflation(price, mrp)`: early-out on falsy `mrp`, then on
falsy `price`; otherwise `ratio = mrp / price if price > 0 else 0`
against the 1.5 / 1.3 thresholds. -/
def detect_mrp_inflation (price mrp : Option Rat) : MrpInflationResult :=
  if pyFalsy mrp then
    { rtype := "mrp_inflation", detected := false, inflation_level := "none",
      mrp := none, price := price, mrpOverPrice := none,
      message := "MRP not provided on this product." }
  else if pyFalsy price then
    { rtype := "mrp_inflation", detected := false, inflation_level := "none",
      mrp := mrp, price := none, mrpOverPrice := none,
      message := "Price not available for comparison." }
  else
    let m := mrp.getD 0
    let p := price.getD 0
    let ratioVal : Rat := if p > 0 then m / p else 0
    if ratioVal ≥ 3 / 2 then
      { rtype := "mrp_inflation", detected := true, inflation_level := "high",
        mrp := some m, price := some p, mrpOverPrice := some (pyRoundN 2 ratioVal),
        message := "The MRP on this product seems significantly inflated. Actual value may be lower than listed MRP." }
    else if ratioVal ≥ 13 / 10 then
      { rtype := "mrp_inflation", detected := true, inflation_level := "medium",
        mrp := some m, price := some p, mrpOverPrice := some (pyRoundN 2 ratioVal),
        message := "The MRP on this product may be inflated. Actual value may be lower than listed MRP." }
    else
      { rtype := "mrp_inflation", detected := false, inflation_level := "none",
        mrp := some m, price := some p, mrpOverPrice := some (pyRoundN 2 ratioVal),
        message := "MRP appears genuine compared to the selling price." }

/-! ### `backend/detectors/mrp_auth_checker.py` -/

/-- `_check_official_website`: a placeholder in the source that always
returns `None` (it only loads a mapping file and never scrapes). -/
def check_official_website : Option Rat := none

/-- `_estimate_realistic_mrp(price, discount_pct)`. -/
def estimate_realistic_mrp (price : Option Rat) (discount_pct : Rat) : Option Rat :=
  match price with
  | none => none
  | some p =>
    if p ≤ 0 then none
    else if discount_pct > 70 then some (p / (65 / 100))
    else if p < 500 then some (p / (6 / 10))
    else if p > 2000 then some (p / (85 / 100))
    else some (p / (7 / 10))

/-- Result dict of `check_mrp_authenticity` (the numeric rendering inside
the message strings is abstracted; no claim inspects those strings). -/
structure MrpAuthResult where
  official_mrp : Option Rat
  market_mrp : Option Rat
  estimated_mrp : Option Rat
  listed_mrp : Option Rat
  price : Option Rat
  inflation_percent : Option Rat
  inflated : Bool
  message : String
  source : String

/-- `check_mrp_authenticity` (lines 47-109), given the merged
`listed_mrp` and `price` values (the claim scenario supplies both, so
the on-page extraction fallbacks that fill them in are not exercised).
`_check_official_website` always returns `None`, so the estimation
branch is the live one. -/
def check_mrp_authenticity_core (listed_mrp price : Option Rat) : MrpAuthResult :=
  let base : MrpAuthResult :=
    { official_mrp := none, market_mrp := none, estimated_mrp := none,
      listed_mrp := pyTruthyOpt listed_mrp, price := pyTruthyOpt price,
      inflation_percent := none, inflated := false, message := "", source := "estimation" }
  if pyFalsy listed_mrp then
    { base with message := "MRP not provided on website. Could not verify authenticity." }
  else if pyFalsy price then
    { base with message := "Price not available for comparison." }
  else
    let m := listed_mrp.getD 0
    let p := price.getD 0
    let discount_pct : Rat := if m > 0 then (m - p) / m * 100 else 0
    match check_official_website with
    | some _ => base
    | none =>
      match estimate_realistic_mrp (some p) discount_pct with
      | some e =>
        let inflation : Rat := if e > 0 then (m - e) / e * 100 else 0
        let inflated0 := inflation > 15
        if inflated0 then
          { base with
            estimated_mrp := some e
            inflation_percent := some (pyRoundN 1 inflation)
            inflated := true
            message := "MRP might be inflated (listed vs realistic estimate)." }
        else if discount_pct > 70 then
          { base with
            estimated_mrp := some e
            inflation_percent := some (pyRoundN 1 inflation)
            inflated := true
            message := "Discount seems unusually high (>70%). MRP may be manipulated to show false savings." }
        else
          { base with
            estimated_mrp := some e
            inflation_percent := some (pyRoundN 1 inflation)
            inflated := false
            message := "MRP appears reasonable." }
      | none =>
        { base with message := "Could not estimate realistic MRP." }

/-! ### `backend/detectors/run_all.py` -/

/-- The five detector results collected by `run_all_detectors`. -/
structure RunAllResults (F : Type) where
  scarcity : F
  timer : F
  drip_pricing : F
  addons : F
  mrp_inflation : F

/-- `run_all_detectors(html, url, price, mrp)`, generalized over the five
detector functions with explicit exception semantics: a Python call
either returns a value (`Except.ok`) or raises (`Except.error`), and the
body of `run_all_detectors` is plain sequential statements with no
`try`/`except`, i.e. monadic bind in `Except` - an exception in any
detector propagates out of the function. -/
def run_all_detectors_gen {E F : Type}
    (dScarcity : List Char → Except E F)
    (dTimer : List Char → Option String → Except E F)
    (dDrip : List Char → Except E F)
    (dAddons : List Char → Except E F)
    (dMrpInfl : Option Rat → Option Rat → Except E F)
    (html : List Char) (url : Option String) (price mrp : Option Rat) :
    Except E (RunAllResults F) := do
  let s ← dScarcity html
  let t ← dTimer html url
  let d ← dDrip html
  let a ← dAddons html
  let m ← dMrpInfl price mrp
  pure { scarcity := s, timer := t, drip_pricing := d, addons := a, mrp_inflation := m }

/-- Whether an `Except` computation completed without raising. -/
def exceptOk {E F : Type} : Except E F → Bool
  | Except.ok _ => true
  | Except.error _ => false

/-! ### `backend/scraper/price_extractor.py` -/

/-- `[\d,]` -/
def digitComma (c : Char) : Bool := pyDigit c || c == ','

/-- Numeric value of a run of decimal digits. -/
def digitRunToNat (l : List Char) : Nat :=
  l.foldl (fun acc c => acc * 10 + (c.toNat - '0'.toNat)) 0

/-- First maximal digit run of a string. -/
def firstDigitRun : List Char → Option (List Char)
  | [] => none
  | c :: t => if pyDigit c then some (c :: t.takeWhile pyDigit) else firstDigitRun t

/-- `re.search(r'₹?\s*([\d,]+)', text.replace(',',''))` and `float` of
group 1: with commas stripped first, group 1 is the first maximal digit
run of the text (the optional rupee/space prefix does not change it). -/
def parsePriceLoose (text : List Char) : Option Rat :=
  (firstDigitRun (text.filter (fun c => !(c == ',')))).map
    (fun ds => ((digitRunToNat ds : Nat) : Rat))

/-- Group 1 of `re.search(r'₹\s*([\d,]+)', s)` on a comma-free string:
the digit run after the first rupee sign that is followed (over
whitespace) by a digit. -/
def parseStrictAux : List Char → Option (List Char)
  | [] => none
  | c :: t =>
    if c == '₹' then
      let rest := t.dropWhile pyWs
      match rest with
      | d :: _ => if pyDigit d then some (rest.takeWhile pyDigit) else parseStrictAux t
      | [] => none
    else parseStrictAux t

/-- `re.search(r'₹\s*([\d,]+)', text.replace(',',''))` and `float` of
group 1. -/
def parsePriceStrict (text : List Char) : Option Rat :=
  (parseStrictAux (text.filter (fun c => !(c == ',')))).map
    (fun ds => ((digitRunToNat ds : Nat) : Rat))

/-- Evidence view of a page for the price extractor: the lower-cased
domain, the `get_text` of the elements matched by each site-specific
selector group, the texts of strikethrough-style elements
(`del`/`s`/`.strike`/`.price-old`/`.list-price`, in document order),
the price and `priceSpecification.maxPrice` extracted by
`_extract_from_json_ld`, the raw markup `str(soup)`, and the visible
text `soup.get_text()`. -/
structure PricePage where
  domain : String
  amazonPriceTexts : List (List Char)
  flipkartPriceText : Option (List Char)
  amazonMrpTexts : List (List Char)
  flipkartMrpText : Option (List Char)
  strikeTexts : List (List Char)
  jsonLdPrice : Option Rat
  jsonLdMaxPrice : Option Rat
  htmlStr : List Char
  pageText : List Char

/-- Length of a `₹\s*[\d,]+` match starting at the head of the list. -/
def rupeeMatchAt : List Char → Option Nat
  | [] => none
  | c :: t =>
    if c == '₹' then
      let nws := leadingRun pyWs t
      let nd := leadingRun digitComma (t.drop nws)
      if nd > 0 then some (1 + nws + nd) else none
    else none

/-- Generic `re.finditer`: all non-overlapping matches of a matcher, as
(start, length) pairs.  Each step consumes at least one character, so a
fuel of `length + 1` (always supplied by the wrappers below) makes the
recursion structural without changing its meaning. -/
def finditerPatAux (m : RxCont) : Nat → Nat → List Char → List (Nat × Nat)
  | 0, _, _ => []
  | _ + 1, i, [] =>
    (match m [] with
     | some n => [(i, n)]
     | none => [])
  | fuel + 1, i, c :: t =>
    match m (c :: t) with
    | some n => (i, n) :: finditerPatAux m fuel (i + max n 1) ((c :: t).drop (max n 1))
    | none => finditerPatAux m fuel (i + 1) t

/-- `re.finditer(r'₹\s*([\d,]+)', html)`. -/
def finditerRupee (html : List Char) : List (Nat × Nat) :=
  finditerPatAux rupeeMatchAt (html.length + 1) 0 html

/-- `float(match.group(1).replace(',', ''))` for a rupee match: the
trailing `[\d,]` run of the match with commas stripped (a run of bare
commas makes `float` raise, i.e. `none`). -/
def rupeeGroupValue (html : List Char) (i len : Nat) : Option Rat :=
  let g := ((mstr html i len).reverse.takeWhile digitComma).reverse
  let ds := g.filter (fun c => !(c == ','))
  if ds.isEmpty then none else some ((digitRunToNat ds : Nat) : Rat)

/-- The +-50-character context window around a match, lower-cased. -/
def ctxWindow (html : List Char) (s e : Nat) : List Char :=
  ((html.take (e + 50)).drop (s - 50)).map Char.toLower

/-- Strikethrough markers looked for in the context window. -/
def hasStrikeCtx (ctx : List Char) : Bool :=
  containsSub (lc "<del") ctx || containsSub (lc "<s") ctx ||
    containsSub (lc "strike") ctx || containsSub (lc "text-decoration") ctx

/-- The regex-fallback candidates of `_detect_selling_price`: every
in-bounds rupee amount in the markup whose context window shows no
strikethrough marker. -/
def regexFallback (html : List Char) : List Rat :=
  (finditerRupee html).filterMap (fun p =>
    match rupeeGroupValue html p.1 p.2 with
    | none => none
    | some v =>
      if 100 ≤ v ∧ v ≤ 10000000 then
        if hasStrikeCtx (ctxWindow html p.1 (p.1 + p.2)) then none else some v
      else none)

/-- `_detect_selling_price(soup, domain)`: pool the site-specific
selector prices (amazon, else flipkart) and the JSON-LD price; fall back
to the context-filtered regex scan only when the pool is empty; return
the minimum. -/
def detect_selling_price (pg : PricePage) : Option Rat :=
  let siteCands : List Rat :=
    if containsSub (lc "amazon") (lc pg.domain) then
      pg.amazonPriceTexts.filterMap parsePriceLoose
    else if containsSub (lc "flipkart") (lc pg.domain) then
      match pg.flipkartPriceText with
      | some t => (parsePriceLoose t).toList
      | none => []
    else []
  let cands1 : List Rat :=
    match pg.jsonLdPrice with
    | some p => if p == 0 then siteCands else siteCands ++ [p]
    | none => siteCands
  let cands := if cands1.isEmpty then regexFallback pg.htmlStr else cands1
  pyMinList cands

/-- `[\d,]+` -/
def digitCommaRun1 : RxPat := repP digitComma 1 none false

/-- The common tail `\s*:?\s*₹\s*([\d,]+)` of the textual MRP patterns. -/
def mrpTailP : RxPat :=
  seqP ws0P (seqP (optCharP ':') (seqP ws0P (seqP (litP (lc "₹")) (seqP ws0P digitCommaRun1))))

/-- `(?:MRP|M\.R\.P\.?)\s*:?\s*₹\s*([\d,]+)` -/
def mrpPat1 : RxPat :=
  seqP (altP [litP (lc "mrp"), seqP (litP (lc "m.r.p")) (optCharP '.')]) mrpTailP

/-- `List\s+Price\s*:?\s*₹\s*([\d,]+)` -/
def mrpPat2 : RxPat := seqP (litP (lc "list")) (seqP ws1P (seqP (litP (lc "price")) mrpTailP))

/-- `Regular\s+Price\s*:?\s*₹\s*([\d,]+)` -/
def mrpPat3 : RxPat := seqP (litP (lc "regular")) (seqP ws1P (seqP (litP (lc "price")) mrpTailP))

/-- `Maximum\s+Retail\s+Price\s*:?\s*₹\s*([\d,]+)` -/
def mrpPat4 : RxPat :=
  seqP (litP (lc "maximum")) (seqP ws1P (seqP (litP (lc "retail"))
    (seqP ws1P (seqP (litP (lc "price")) mrpTailP))))

/-- `Original\s+Price\s*:?\s*₹\s*([\d,]+)` -/
def mrpPat5 : RxPat := seqP (litP (lc "original")) (seqP ws1P (seqP (litP (lc "price")) mrpTailP))

/-- First match of one textual MRP pattern: parse group 1 and apply the
100..10^7 bounds check (failure moves on to the next pattern). -/
def mrpPatValue (text : List Char) (p : RxPat) : Option Rat :=
  match searchPat p text with
  | none => none
  | some pr =>
    let g := ((mstr text pr.1 pr.2).reverse.takeWhile digitComma).reverse
    let ds := g.filter (fun c => !(c == ','))
    if ds.isEmpty then none
    else
      let v : Rat := ((digitRunToNat ds : Nat) : Rat)
      if 100 ≤ v ∧ v ≤ 10000000 then some v else none

/-- The textual-pattern loop of `_detect_mrp_onsite` (patterns tried in
source order, case-insensitively, over the visible page text). -/
def mrpTextScan (text : List Char) : Option Rat :=
  firstSome [mrpPat1, mrpPat2, mrpPat3, mrpPat4, mrpPat5] (mrpPatValue text)

/-- `_detect_mrp_onsite(soup, domain)`: textual MRP patterns first, then
the site-specific MRP selectors, then the JSON-LD `maxPrice`. -/
def detect_mrp_onsite (pg : PricePage) : Option Rat :=
  match mrpTextScan (pg.pageText.map Char.toLower) with
  | some v => some v
  | none =>
    let site : Option Rat :=
      if containsSub (lc "amazon") (lc pg.domain) then
        firstSome pg.amazonMrpTexts parsePriceStrict
      else if containsSub (lc "flipkart") (lc pg.domain) then
        pg.flipkartMrpText.bind parsePriceStrict
      else none
    match site with
    | some v => some v
    | none =>
      match pg.jsonLdMaxPrice with
      | some m => if m == 0 then none else some m
      | none => none

/-- In-bounds strikethrough-element candidates of
`_detect_mrp_strikethrough`. -/
def strikeElemCandidates (pg : PricePage) : List Rat :=
  pg.strikeTexts.filterMap (fun t =>
    match parsePriceStrict t with
    | some v => if 100 ≤ v ∧ v ≤ 10000000 then some v else none
    | none => none)

/-- `text-decoration\s*:\s*line-through[^>]*>.*?₹\s*([\d,]+)` (DOTALL). -/
def cssStrikeP : RxPat :=
  seqP (litP (lc "text-decoration")) (seqP ws0P (seqP (litP (lc ":"))
    (seqP ws0P (seqP (litP (lc "line-through"))
      (seqP (repP (fun c => !(c == '>')) 0 none false) (seqP (litP (lc ">"))
        (seqP (repP (fun _ => true) 0 none true)
          (seqP (litP (lc "₹")) (seqP ws0P digitCommaRun1)))))))))

/-- CSS strikethrough candidates of `_detect_mrp_strikethrough`. -/
def cssStrikeCandidates (pg : PricePage) : List Rat :=
  let h := pg.htmlStr.map Char.toLower
  (finditerPatAux (cssStrikeP rxAccept) (h.length + 1) 0 h).filterMap (fun p =>
    match rupeeGroupValue h p.1 p.2 with
    | none => none
    | some v => if 100 ≤ v ∧ v ≤ 10000000 then some v else none)

/-- All in-bounds strikethrough candidates, in source order. -/
def strikeCandidates (pg : PricePage) : List Rat :=
  strikeElemCandidates pg ++ cssStrikeCandidates pg

/-- `_detect_mrp_strikethrough(soup)`: maximum of the candidates. -/
def detect_mrp_strikethrough (pg : PricePage) : Option Rat :=
  pyMaxList (strikeCandidates pg)

/-- `(?:Save|off)\s+(\d+)%` -/
def inferP1 : RxPat :=
  seqP (altP [litP (lc "save"), litP (lc "off")]) (seqP ws1P (seqP dig1P (litP (lc "%"))))

/-- `(?:You\s+save|Save)\s*₹\s*([\d,]+)` -/
def inferP2 : RxPat :=
  seqP (altP [seqP (litP (lc "you")) (seqP ws1P (litP (lc "save"))), litP (lc "save")])
    (seqP ws0P (seqP (litP (lc "₹")) (seqP ws0P digitCommaRun1)))

/-- `_infer_mrp_from_discount(soup, selling_price)`. -/
def infer_mrp_from_discount (pageText : List Char) (selling : Rat) : Option Rat :=
  let t := pageText.map Char.toLower
  let r1 : Option Rat :=
    match searchPat inferP1 t with
    | some pr =>
      let g := (((mstr t pr.1 pr.2).dropLast).reverse.takeWhile pyDigit).reverse
      let d : Rat := ((digitRunToNat g : Nat) : Rat) / 100
      if 0 < d ∧ d < 1 then
        let mrp := selling / (1 - d)
        if mrp > selling then some ((pyRound0 mrp : Int) : Rat) else none
      else none
    | none => none
  match r1 with
  | some v => some v
  | none =>
    match searchPat inferP2 t with
    | some pr =>
      let g := ((mstr t pr.1 pr.2).reverse.takeWhile digitComma).reverse
      let ds := g.filter (fun c => !(c == ','))
      if ds.isEmpty then none
      else
        let saveAmt : Rat := ((digitRunToNat ds : Nat) : Rat)
        if saveAmt > 0 then
          let mrp := selling + saveAmt
          if mrp > selling then some ((pyRound0 mrp : Int) : Rat) else none
        else none
    | none => none

/-- `_generate_mrp_message` (the numeric renderings inside the strings
are abstracted; no claim inspects these strings). -/
def generate_mrp_message (mrp selling inflation_factor : Option Rat) (src : String) : String :=
  if pyFalsy mrp then "MRP not provided. Could not verify authenticity."
  else if pyFalsy selling then "MRP listed. Price information not available for comparison."
  else if !(pyFalsy inflation_factor) && inflation_factor.getD 0 > 13 / 10 then
    "MRP may be inflated compared to market average."
  else if src == "inferred" then "MRP inferred from discount information."
  else "MRP and selling price listed."

/-- Structured result of `extract_price_and_mrp_detailed`. -/
structure ExtractResult where
  selling_price : Option Rat
  mrp : Option Rat
  mrp_source : Option String
  benchmark_mrp : Option Rat
  inflation_factor : Option Rat
  confidence : Option String
  message : String

/-- `extract_price_and_mrp_detailed(html, url)`.  `_get_cross_site_mrp`
is a placeholder that always returns `None` in the source, so step 5
never changes the state and `benchmark_mrp` is always `None`. -/
def extract_price_and_mrp_detailed (pg : PricePage) : Option ExtractResult :=
  if pg.htmlStr.isEmpty then none
  else
    let selling := detect_selling_price pg
    let mrp1 := detect_mrp_onsite pg
    let m2 : Option Rat := if pyFalsy mrp1 then detect_mrp_strikethrough pg else mrp1
    let conf2 : String :=
      if pyFalsy mrp1 then (if pyFalsy m2 then "high" else "medium") else "high"
    let step4 :=
      if pyFalsy m2 && !(pyFalsy selling) then
        match infer_mrp_from_discount pg.pageText (selling.getD 0) with
        | some v => (some v, "inferred", "low")
        | none => (m2, "onsite", conf2)
      else (m2, "onsite", conf2)
    let finalMrp : Option Rat := if pyFalsy step4.1 then none else step4.1
    let inflation_factor : Option Rat :=
      if !(pyFalsy finalMrp) && !(pyFalsy selling) &&
          finalMrp.getD 0 > selling.getD 0 * (14 / 10) then
        some (pyRoundN 2 (finalMrp.getD 0 / selling.getD 0))
      else none
    some
      { selling_price := pyTruthyOpt selling
        mrp := pyTruthyOpt finalMrp
        mrp_source := if pyFalsy finalMrp then none else some step4.2.1
        benchmark_mrp := none
        inflation_factor := inflation_factor
        confidence := if pyFalsy finalMrp then none else some step4.2.2
        message := generate_mrp_message finalMrp selling inflation_factor step4.2.1 }

/-! ### Claim-side definitions and concrete inputs -/

/-- Weight table exactly as claim C1 words it: `pre_ticked_addon` and
`fake_timer` weigh 2, every other (including unrecognized) type 1. -/
def claimWeight (t : String) : Rat :=
  if t = "pre_ticked_addon" ∨ t = "fake_timer" then 2 else 1

/-- Severity multipliers exactly as claim C1 words them (defined on the
three enumerated severities; 0 elsewhere, claims never use it there). -/
def claimSevMult (s : String) : Rat :=
  if s = "high" then 3 / 2
  else if s = "medium" then 1
  else if s = "low" then 1 / 2
  else 0

/-- Claim C1 total: sum over findings of weight times multiplier. -/
def claimTotal (vs : List Violation) : Rat :=
  (vs.map (fun v => claimWeight v.vtype * claimSevMult v.severity)).sum

/-- Grade mapping exactly as claim C1 words it: 0 gives A, (0,2] gives B,
(2,4] gives C, (4,6] gives D, more than 6 gives F. -/
def claimGrade (x : Rat) : String :=
  if x = 0 then "A"
  else if 0 < x ∧ x ≤ 2 then "B"
  else if 2 < x ∧ x ≤ 4 then "C"
  else if 4 < x ∧ x ≤ 6 then "D"
  else "F"

/-- The benchmark-MRP formula the code actually implements, as a function
of the price and the apparent discount `d = 1 - price/mrp`. -/
def claimBench (p d : Rat) : Rat :=
  if d > 7 / 10 then p / (65 / 100)
  else if p < 500 then p / (6 / 10)
  else if p > 2000 then p / (85 / 100)
  else p / (7 / 10)

/-- A stock keyword of the tail alternation occurs in `t`. -/
def hasStockKw (t : List Char) : Prop :=
  containsSub (lc "left") t = true ∨ containsSub (lc "remaining") t = true ∨
    containsSub (lc "stock") t = true

/-- Claim C2: a text has no stock keyword when none of the stock-context
markers of the detector (`left`, `remaining`, `stock`, `selling`)
occurs in it. -/
def noStockKw (t : List Char) : Prop :=
  containsSub (lc "left") t = false ∧ containsSub (lc "remaining") t = false ∧
    containsSub (lc "stock") t = false ∧ containsSub (lc "selling") t = false

/-- A price page with no evidence at all (base for the concrete pages). -/
def basePg : PricePage :=
  { domain := "www.example.com", amazonPriceTexts := [], flipkartPriceText := none,
    amazonMrpTexts := [], flipkartMrpText := none, strikeTexts := [],
    jsonLdPrice := none, jsonLdMaxPrice := none, htmlStr := lc "x", pageText := lc "" }

/-- Claim C4 counterexample page: structured data carries
`{price: 1599, maxPrice: 3490}` but the visible text also matches the
`MRP:` currency pattern with 9999. -/
def c4CounterPg : PricePage :=
  { basePg with
    jsonLdPrice := some 1599
    jsonLdMaxPrice := some 3490
    htmlStr := lc "<html>x</html>"
    pageText := lc "special offer MRP: ₹9999 today" }

/-- Claim C4 positive page: structured data `{price: 1599, maxPrice: 3490}`
with conflicting bare currency-regex matches in the markup but no
textual MRP pattern. -/
def c4StructPg : PricePage :=
  { basePg with
    jsonLdPrice := some 1599
    jsonLdMaxPrice := some 3490
    htmlStr := lc "<html><div>Some content ₹136 ₹500</div></html>"
    pageText := lc "Some content" }

/-- Claim C5 failing page: an amazon price element reading 500 rupees
together with visible text listing `MRP: ₹3,490`. -/
def c5FailPg : PricePage :=
  { basePg with
    domain := "www.amazon.in"
    amazonPriceTexts := [lc "₹500"]
    htmlStr := lc "<span>₹500</span> MRP: ₹3,490"
    pageText := lc "₹500 MRP: ₹3,490" }

/-- Claim C6 page: two strikethrough price elements, 2999 and 3490. -/
def c6Pg : PricePage :=
  { basePg with strikeTexts := [lc "₹2,999", lc "₹3,490"] }

/-- Claim C9 page: a checked checkbox whose parent text is an
`Extended Warranty` add-on, a countdown in the text, and nothing that
any other text detector matches. -/
def c9Soup : Soup :=
  { text := lc "Extended Warranty added by default. Deal ends 02:59:45.",
    checkedParentTexts := [lc "Extended Warranty added by default"],
    selectedOptionTexts := [], smallPrintStrs := [] }

/-- Claim C9 timer analysis: the countdown increased on refresh, so the
scraper reported a fake timer. -/
def c9Timer : TimerAnalysis := { fake_timer := true, confidence := "medium" }

/-! ### Generic matcher lemmas -/

theorem firstSome_some {l : List α} {f : α → Option β} {b : β}
    (h : firstSome l f = some b) : ∃ a ∈ l, f a = some b := by
  induction l with
  | nil => simp [firstSome] at h
  | cons a l ih =>
    by_cases hfa : ∃ b', f a = some b'
    · obtain ⟨b', hb'⟩ := hfa
      simp [firstSome, hb'] at h
      exact ⟨a, List.mem_cons_self a l, by rw [hb', h]⟩
    · push_neg at hfa
      have hnone : f a = none := by
        cases hfaeq : f a with
        | none => rfl
        | some b' => exact absurd hfaeq (hfa b')
      simp [firstSome, hnone] at h
      obtain ⟨a', ha', hfa'⟩ := ih h
      exact ⟨a', List.mem_cons_of_mem a ha', hfa'⟩

theorem litP_some {s : List Char} {k : RxCont} {t : List Char} {n : Nat}
    (h : litP s k t = some n) :
    litPref s t = true ∧ ∃ r, k (t.drop s.length) = some r := by
  unfold litP at h
  by_cases hp : litPref s t = true
  · refine ⟨hp, ?_⟩
    rw [hp] at h
    simp at h
    cases hk : k (t.drop s.length) with
    | none => rw [hk] at h; simp at h
    | some r => exact ⟨r, rfl⟩
  · simp [hp] at h

theorem repP_some {cls : Char → Bool} {lo : Nat} {hi : Option Nat} {lz : Bool}
    {k : RxCont} {t : List Char} {n : Nat}
    (h : repP cls lo hi lz k t = some n) :
    ∃ d r, k (t.drop d) = some r := by
  unfold repP at h
  obtain ⟨d, _, hd⟩ := firstSome_some h
  cases hk : k (t.drop d) with
  | none => rw [hk] at hd; simp at hd
  | some r => exact ⟨d, r, hk⟩

theorem altP_some {ps : List RxPat} {k : RxCont} {t : List Char} {n : Nat}
    (h : altP ps k t = some n) : ∃ p ∈ ps, p k t = some n := by
  unfold altP at h
  exact firstSome_some h

theorem searchAux_some {m : RxCont} {i j n : Nat} {t : List Char}
    (h : searchAux m i t = some (j, n)) : ∃ d, m (t.drop d) = some n := by
  induction t generalizing i with
  | nil =>
    simp only [searchAux] at h
    cases hm : m [] with
    | none => rw [hm] at h; simp at h
    | some r =>
      rw [hm] at h
      simp at h
      exact ⟨0, by simp [hm, h.2]⟩
  | cons c t ih =>
    simp only [searchAux] at h
    cases hm : m (c :: t) with
    | some r =>
      rw [hm] at h
      simp at h
      exact ⟨0, by simp [hm, h.2]⟩
    | none =>
      rw [hm] at h
      obtain ⟨d, hd⟩ := ih h
      exact ⟨d + 1, by simpa using hd⟩

theorem searchPat_some {p : RxPat} {t : List Char} {j n : Nat}
    (h : searchPat p t = some (j, n)) : ∃ d, p rxAccept (t.drop d) = some n :=
  searchAux_some h

theorem containsSub_of_litPref_drop {s t : List Char} {i : Nat}
    (h : litPref s (t.drop i) = true) : containsSub s t = true := by
  induction t generalizing i with
  | nil =>
    simp at h
    cases s with
    | nil => rfl
    | cons a s => simp [litPref] at h
  | cons c t ih =>
    cases i with
    | zero =>
      simp at h
      simp [containsSub, h]
    | succ i =>
      simp at h
      simp [containsSub, ih h]

theorem containsSub_drop {s t : List Char} {i : Nat}
    (h : containsSub s (t.drop i) = true) : containsSub s t = true := by
  induction t generalizing i with
  | nil => simpa using h
  | cons c t ih =>
    cases i with
    | zero => simpa using h
    | succ i =>
      simp at h
      simp [containsSub, ih h]

theorem litPref_take {s l : List Char} {n : Nat}
    (h : litPref s (l.take n) = true) : litPref s l = true := by
  induction l generalizing s n with
  | nil =>
    cases s with
    | nil => rfl
    | cons a s =>
      rw [List.take_nil] at h
      simp [litPref] at h
  | cons c l ih =>
    cases s with
    | nil => rfl
    | cons a s =>
      cases n with
      | zero => simp [litPref] at h
      | succ n =>
        rw [List.take_succ_cons] at h
        simp only [litPref, Bool.and_eq_true] at h ⊢
        exact ⟨h.1, ih h.2⟩

theorem containsSub_take {s l : List Char} {n : Nat}
    (h : containsSub s (l.take n) = true) : containsSub s l = true := by
  induction l generalizing n with
  | nil =>
    rw [List.take_nil] at h
    exact h
  | cons c l ih =>
    cases n with
    | zero =>
      rw [List.take_zero] at h
      cases s with
      | nil => rfl
      | cons a s =>
        simp [containsSub, litPref] at h
    | succ n =>
      rw [List.take_succ_cons] at h
      simp only [containsSub, Bool.or_eq_true] at h ⊢
      rcases h with h | h
      · exact Or.inl (litPref_take (n := n + 1) (by rw [List.take_succ_cons]; exact h))
      · exact Or.inr (ih h)

theorem containsSub_mstr {s t : List Char} {i n : Nat}
    (h : containsSub s (mstr t i n) = true) : containsSub s t = true :=
  containsSub_drop (i := i) (containsSub_take h)

/-! ### Aggregator lemmas (claim C1) -/

theorem weightOf_eq_claimWeight (t : String) : weightOf t = claimWeight t := by
  unfold weightOf claimWeight
  split_ifs <;> simp_all

theorem sevMultOf_eq_claimSevMult (s : String)
    (h : s = "high" ∨ s = "medium" ∨ s = "low") : sevMultOf s = claimSevMult s := by
  rcases h with rfl | rfl | rfl <;> rfl

theorem foldl_add_contrib (f : Violation → Rat) (vs : List Violation) (init : Rat) :
    vs.foldl (fun acc v => acc + f v) init = init + (vs.map f).sum := by
  induction vs generalizing init with
  | nil => simp
  | cons v vs ih =>
    simp only [List.foldl_cons, List.map_cons, List.sum_cons, ih]
    ring

theorem claimWeight_nonneg (t : String) : 0 ≤ claimWeight t := by
  unfold claimWeight
  split_ifs <;> norm_num

theorem claimSevMult_nonneg (s : String) : 0 ≤ claimSevMult s := by
  unfold claimSevMult
  split_ifs <;> norm_num

theorem claimTotal_nonneg (vs : List Violation) : 0 ≤ claimTotal vs := by
  unfold claimTotal
  apply List.sum_nonneg
  intro x hx
  obtain ⟨v, _, rfl⟩ := List.mem_map.mp hx
  exact mul_nonneg (claimWeight_nonneg _) (claimSevMult_nonneg _)

theorem trust_score_foldl_eq (vs : List Violation)
    (hsev : ∀ v ∈ vs, v.severity = "high" ∨ v.severity = "medium" ∨ v.severity = "low") :
    vs.foldl (fun acc v => acc + weightOf v.vtype * sevMultOf v.severity) 0 = claimTotal vs := by
  rw [foldl_add_contrib]
  unfold claimTotal
  rw [zero_add]
  congr 1
  apply List.map_congr_left
  intro v hv
  rw [weightOf_eq_claimWeight, sevMultOf_eq_claimSevMult v.severity (hsev v hv)]

theorem trustFromTotal_score (x : Rat) : (trustFromTotal x).score = x := by
  unfold trustFromTotal
  split_ifs <;> rfl

theorem trustFromTotal_grade (x : Rat) (hx : 0 ≤ x) :
    (trustFromTotal x).grade = claimGrade x := by
  unfold trustFromTotal claimGrade
  by_cases h1 : x = 0
  · rw [if_pos h1, if_pos h1]
  · have h1' : 0 < x := lt_of_le_of_ne hx (Ne.symm h1)
    rw [if_neg h1, if_neg h1]
    by_cases h2 : x ≤ 2
    · rw [if_pos h2, if_pos (⟨h1', h2⟩ : 0 < x ∧ x ≤ 2)]
    · rw [if_neg h2, if_neg (fun hc : 0 < x ∧ x ≤ 2 => h2 hc.2)]
      by_cases h3 : x ≤ 4
      · rw [if_pos h3, if_pos (⟨lt_of_not_le h2, h3⟩ : 2 < x ∧ x ≤ 4)]
      · rw [if_neg h3, if_neg (fun hc : 2 < x ∧ x ≤ 4 => h3 hc.2)]
        by_cases h4 : x ≤ 6
        · rw [if_pos h4, if_pos (⟨lt_of_not_le h3, h4⟩ : 4 < x ∧ x ≤ 6)]
        · rw [if_neg h4, if_neg (fun hc : 4 < x ∧ x ≤ 6 => h4 hc.2)]

/-- Claim C1: the trust score aggregator computes, for every list of
findings (with the enumerated severities), the total score as the sum of
weight(type) x severityMultiplier(severity) with weights
pre_ticked_addon = fake_timer = 2 and 1 otherwise, multipliers
high = 1.5, medium = 1.0, low = 0.5, and maps the total to the grade
ladder 0 -> A, (0,2] -> B, (2,4] -> C, (4,6] -> D, (6,inf) -> F. -/
theorem claim_C1_trust_score (vs : List Violation)
    (hsev : ∀ v ∈ vs, v.severity = "high" ∨ v.severity = "medium" ∨ v.severity = "low") :
    (calculate_trust_score vs).score = claimTotal vs ∧
    (calculate_trust_score vs).grade = claimGrade (claimTotal vs) := by
  have hfold := trust_score_foldl_eq vs hsev
  have h0 := claimTotal_nonneg vs
  unfold calculate_trust_score
  rw [hfold]
  exact ⟨trustFromTotal_score _, trustFromTotal_grade _ h0⟩

/-- Witness for claim C1 at a concrete finding list. -/
theorem claim_C1_trust_score_witness :
    (calculate_trust_score
        [{ vtype := "fake_timer", title := "Fake Timer", severity := "high",
           confidence := "medium", explanation := "", snippet := "" }]).score =
      claimTotal
        [{ vtype := "fake_timer", title := "Fake Timer", severity := "high",
           confidence := "medium", explanation := "", snippet := "" }] ∧
    (calculate_trust_score
        [{ vtype := "fake_timer", title := "Fake Timer", severity := "high",
           confidence := "medium", explanation := "", snippet := "" }]).grade =
      claimGrade
        (claimTotal
          [{ vtype := "fake_timer", title := "Fake Timer", severity := "high",
             confidence := "medium", explanation := "", snippet := "" }]) :=
  claim_C1_trust_score _ (by decide)

/-- Claim C3: the two-sample timer check flags exactly when the timer
increased, drifted down by more than 10 seconds, or did not change; in
particular t1 = 120, t2 = 119 raises no flag. -/
theorem claim_C3_timer_two_sample :
    (∀ t1 t2 : Int, check_timer_reset_cmp (some t1) (some t2) =
      (decide (t2 > t1) || decide (t1 - t2 > 10) || decide (t1 = t2))) ∧
    check_timer_reset_cmp (some 120) (some 119) = false := by
  constructor
  · intro a b
    unfold check_timer_reset_cmp
    by_cases h1 : b > a
    · simp [h1]
    · by_cases h2 : a - b > 10
      · simp [h1, h2]
      · by_cases h3 : a = b
        · subst h3
          simp
        · have hab : ¬ ((a - b).natAbs < 1) := by omega
          simp [h1, h2, h3, hab]
  · decide

/-- Claim C10: `detect_mrp_inflation` is total on `None`/zero/negative
inputs: falsy MRP gives the not-provided message, falsy price the
price-unavailable message, and the ratio `mrp/price` is taken only for
strictly positive price (a negative price yields ratio 0). -/
theorem claim_C10_mrp_inflation_total (price mrp : Option Rat) :
    (pyFalsy mrp = true →
      (detect_mrp_inflation price mrp).detected = false ∧
      (detect_mrp_inflation price mrp).message = "MRP not provided on this product.") ∧
    (pyFalsy mrp = false → pyFalsy price = true →
      (detect_mrp_inflation price mrp).detected = false ∧
      (detect_mrp_inflation price mrp).message = "Price not available for comparison.") ∧
    (∀ p m : Rat, price = some p → mrp = some m → p < 0 → m ≠ 0 →
      (detect_mrp_inflation price mrp).detected = false ∧
      (detect_mrp_inflation price mrp).mrpOverPrice = some 0) ∧
    (∀ p m : Rat, price = some p → mrp = some m → 0 < p → m ≠ 0 →
      (detect_mrp_inflation price mrp).mrpOverPrice = some (pyRoundN 2 (m / p))) := by
  refine ⟨?_, ?_, ?_, ?_⟩
  · intro hm
    unfold detect_mrp_inflation
    rw [hm]
    exact ⟨rfl, rfl⟩
  · intro hm hp
    unfold detect_mrp_inflation
    rw [hm, hp]
    exact ⟨rfl, rfl⟩
  · rintro p m rfl rfl hp hm
    have hmf : pyFalsy (some m) = false := by
      show (m == 0) = false
      exact beq_eq_false_iff_ne.mpr hm
    have hpf : pyFalsy (some p) = false := by
      show (p == 0) = false
      exact beq_eq_false_iff_ne.mpr (ne_of_lt hp)
    have hppos : ¬ (p > 0) := by linarith
    unfold detect_mrp_inflation
    simp only [hmf, hpf, Bool.false_eq_true, if_false, Option.getD_some, if_neg hppos]
    have hz2 : ¬ ((0 : Rat) ≥ 3 / 2) := by norm_num
    have hz3 : ¬ ((0 : Rat) ≥ 13 / 10) := by norm_num
    rw [if_neg hz2, if_neg hz3]
    constructor
    · rfl
    · have h00 : pyRoundN 2 (0 : Rat) = 0 := by decide
      simp [h00]
  · rintro p m rfl rfl hp hm
    have hmf : pyFalsy (some m) = false := by
      show (m == 0) = false
      exact beq_eq_false_iff_ne.mpr hm
    have hpf : pyFalsy (some p) = false := by
      show (p == 0) = false
      exact beq_eq_false_iff_ne.mpr (ne_of_gt hp)
    unfold detect_mrp_inflation
    simp only [hmf, hpf, Bool.false_eq_true, if_false, Option.getD_some, if_pos hp]
    split_ifs <;> rfl

/-- Witness for claim C10 at concrete inputs. -/
theorem claim_C10_mrp_inflation_total_witness :
    ((detect_mrp_inflation (some 1000) none).detected = false ∧
      (detect_mrp_inflation (some 1000) none).message = "MRP not provided on this product.") ∧
    ((detect_mrp_inflation (some 0) (some 3000)).detected = false ∧
      (detect_mrp_inflation (some 0) (some 3000)).message = "Price not available for comparison.") ∧
    ((detect_mrp_inflation (some (-5)) (some 3000)).detected = false ∧
      (detect_mrp_inflation (some (-5)) (some 3000)).mrpOverPrice = some 0) ∧
    (detect_mrp_inflation (some 1000) (some 1600)).mrpOverPrice =
      some (pyRoundN 2 ((1600 : Rat) / 1000)) :=
  ⟨(claim_C10_mrp_inflation_total (some 1000) none).1 (by decide),
   ((claim_C10_mrp_inflation_total (some 0) (some 3000)).2.1 (by decide) (by decide)),
   ((claim_C10_mrp_inflation_total (some (-5)) (some 3000)).2.2.1 (-5) 3000 rfl rfl
     (by decide) (by decide)),
   ((claim_C10_mrp_inflation_total (some 1000) (some 1600)).2.2.2 1000 1600 rfl rfl
     (by decide) (by decide))⟩

/-! ### Maximum lemmas (claim C6) -/

theorem pyMax2_choice (x y : Rat) : pyMax2 x y = x ∨ pyMax2 x y = y := by
  unfold pyMax2
  split_ifs <;> simp

theorem le_pyMax2_left (x y : Rat) : x ≤ pyMax2 x y := by
  unfold pyMax2
  split_ifs with h
  · linarith
  · linarith

theorem le_pyMax2_right (x y : Rat) : y ≤ pyMax2 x y := by
  unfold pyMax2
  split_ifs with h
  · linarith
  · linarith

theorem foldl_pyMax2_mem (a : Rat) (as : List Rat) : as.foldl pyMax2 a ∈ a :: as := by
  induction as generalizing a with
  | nil => simp
  | cons b bs ih =>
    simp only [List.foldl_cons]
    rcases pyMax2_choice a b with hm | hm <;> rw [hm]
    · rcases List.mem_cons.mp (ih a) with h | h <;> simp [h]
    · rcases List.mem_cons.mp (ih b) with h | h <;> simp [h]

theorem foldl_pyMax2_le (a : Rat) (as : List Rat) : ∀ x ∈ a :: as, x ≤ as.foldl pyMax2 a := by
  induction as generalizing a with
  | nil =>
    intro x hx
    simp at hx
    simp [hx]
  | cons b bs ih =>
    intro x hx
    simp only [List.foldl_cons]
    rcases List.mem_cons.mp hx with rfl | hx'
    · exact le_trans (le_pyMax2_left x b) (ih (pyMax2 x b) _ (List.mem_cons_self _ _))
    · rcases List.mem_cons.mp hx' with rfl | hx''
      · exact le_trans (le_pyMax2_right a x) (ih (pyMax2 a x) _ (List.mem_cons_self _ _))
      · exact ih (pyMax2 a b) x (List.mem_cons_of_mem _ hx'')

/-- Claim C6: when MRP is resolved from strikethrough-marked elements,
the resolver returns the maximum in-bounds candidate; in particular the
candidates {2999, 3490} resolve to 3490. -/
theorem claim_C6_strikethrough_max :
    (∀ (pg : PricePage) (m : Rat), detect_mrp_strikethrough pg = some m →
      m ∈ strikeCandidates pg ∧ ∀ v ∈ strikeCandidates pg, v ≤ m) ∧
    detect_mrp_strikethrough c6Pg = some 3490 := by
  constructor
  · intro pg m h
    unfold detect_mrp_strikethrough at h
    cases hc : strikeCandidates pg with
    | nil => rw [hc] at h; simp [pyMaxList] at h
    | cons a as =>
      rw [hc] at h
      simp only [pyMaxList] at h
      cases h
      exact ⟨foldl_pyMax2_mem a as, foldl_pyMax2_le a as⟩
  · decide

/-- Witness for claim C6: the universal part applied to the concrete
page of the claim example. -/
theorem claim_C6_strikethrough_max_witness :
    (3490 : Rat) ∈ strikeCandidates c6Pg ∧ ∀ v ∈ strikeCandidates c6Pg, v ≤ 3490 :=
  claim_C6_strikethrough_max.1 c6Pg 3490 claim_C6_strikethrough_max.2

/-! ### Claim C7: inflation estimator -/

/-- Claim C7 counterexample: at price 1000 and listed MRP 5000 the code
flags, but its benchmark is 1000 / 0.65 = 20000/13 (about 1538), not the
claimed 1000 x 2.2 = 2200. -/
theorem claim_C7_counterexample :
    (check_mrp_authenticity_core (some 5000) (some 1000)).estimated_mrp = some (20000 / 13) ∧
    ((20000 : Rat) / 13) ≠ 2200 ∧
    (check_mrp_authenticity_core (some 5000) (some 1000)).inflated = true := by
  refine ⟨by decide, by decide, by decide⟩

theorem estimate_eq_claimBench (m p : Rat) (hp : 0 < p) (hm : 0 < m) :
    estimate_realistic_mrp (some p) (if m > 0 then (m - p) / m * 100 else 0) =
      some (claimBench p (1 - p / m)) := by
  have hmne : m ≠ 0 := ne_of_gt hm
  rw [if_pos hm]
  unfold estimate_realistic_mrp claimBench
  dsimp only
  have hnp : ¬ p ≤ 0 := not_le.mpr hp
  have hd : ((m - p) / m * 100 > 70) ↔ (1 - p / m > 7 / 10) := by
    rw [sub_div, div_self hmne]
    constructor <;> intro <;> linarith
  rw [if_neg hnp]
  by_cases hgt : (m - p) / m * 100 > 70
  · rw [if_pos hgt, if_pos (hd.mp hgt)]
  · rw [if_neg hgt, if_neg (fun hc => hgt (hd.mpr hc))]
    split_ifs <;> rfl

/-- Claim C7 amended: the estimator sets the benchmark to
price / 0.65 when the apparent discount exceeds 0.7 (price / 0.6,
price / 0.85 or price / 0.7 otherwise depending on the price band), and
flags exactly when the listed MRP exceeds the benchmark by more than 15%
or the apparent discount exceeds 0.7. -/
theorem claim_C7_amended (m p : Rat) (hp : 0 < p) (hm : 0 < m) :
    (check_mrp_authenticity_core (some m) (some p)).estimated_mrp =
      some (claimBench p (1 - p / m)) ∧
    (check_mrp_authenticity_core (some m) (some p)).inflated =
      (decide (m / claimBench p (1 - p / m) > 23 / 20) || decide (1 - p / m > 7 / 10)) := by
  have hmf : pyFalsy (some m) = false := by
    show (m == 0) = false
    exact beq_eq_false_iff_ne.mpr (ne_of_gt hm)
  have hpf : pyFalsy (some p) = false := by
    show (p == 0) = false
    exact beq_eq_false_iff_ne.mpr (ne_of_gt hp)
  have hmne : m ≠ 0 := ne_of_gt hm
  have hE := estimate_eq_claimBench m p hp hm
  set e := claimBench p (1 - p / m) with hedef
  have he : 0 < e := by
    rw [hedef]
    unfold claimBench
    split_ifs <;> positivity
  have hene : e ≠ 0 := ne_of_gt he
  have hdisc : ((m - p) / m * 100 > 70) ↔ (1 - p / m > 7 / 10) := by
    rw [sub_div, div_self hmne]
    constructor <;> intro <;> linarith
  have hinfl : ((m - e) / e * 100 > 15) ↔ (m / e > 23 / 20) := by
    rw [sub_div, div_self hene]
    constructor <;> intro <;> linarith
  unfold check_mrp_authenticity_core check_official_website
  simp only [hmf, hpf, Bool.false_eq_true, if_false, Option.getD_some, hE]
  rw [if_pos he, if_pos hm]
  by_cases h1 : (m - e) / e * 100 > 15
  · rw [if_pos h1]
    refine ⟨rfl, ?_⟩
    have hd1 : decide (m / e > 23 / 20) = true := decide_eq_true (hinfl.mp h1)
    simp [hd1]
  · rw [if_neg h1]
    by_cases h2 : (m - p) / m * 100 > 70
    · rw [if_pos h2]
      refine ⟨rfl, ?_⟩
      have hd2 : decide (1 - p / m > 7 / 10) = true := decide_eq_true (hdisc.mp h2)
      simp [hd2]
    · rw [if_neg h2]
      refine ⟨rfl, ?_⟩
      have hd1 : decide (m / e > 23 / 20) = false :=
        decide_eq_false (fun hc => h1 (hinfl.mpr hc))
      have hd2 : decide (1 - p / m > 7 / 10) = false :=
        decide_eq_false (fun hc => h2 (hdisc.mpr hc))
      simp [hd1, hd2]

/-- Witness for claim C7 amended at the example price 1000, MRP 5000. -/
theorem claim_C7_amended_witness :
    (check_mrp_authenticity_core (some 5000) (some 1000)).estimated_mrp =
      some (claimBench 1000 (1 - 1000 / 5000)) ∧
    (check_mrp_authenticity_core (some 5000) (some 1000)).inflated =
      (decide ((5000 : Rat) / claimBench 1000 (1 - 1000 / 5000) > 23 / 20) ||
        decide ((1 : Rat) - 1000 / 5000 > 7 / 10)) :=
  claim_C7_amended 5000 1000 (by decide) (by decide)

/-! ### Claim C8: detector isolation -/

/-- Claim C8 counterexample: a detector that raises makes
`run_all_detectors` raise as well - the exception is not converted into
a no-finding, and the remaining detectors never run. -/
theorem claim_C8_counterexample :
    run_all_detectors_gen (E := String) (F := Bool)
        (fun _ => Except.error "detector exception")
        (fun _ _ => Except.ok true) (fun _ => Except.ok true) (fun _ => Except.ok true)
        (fun _ _ => Except.ok true) (lc "<html>page</html>") none none none =
      Except.error "detector exception" ∧
    exceptOk (run_all_detectors_gen (E := String) (F := Bool)
        (fun _ => Except.error "detector exception")
        (fun _ _ => Except.ok true) (fun _ => Except.ok true) (fun _ => Except.ok true)
        (fun _ _ => Except.ok true) (lc "<html>page</html>") none none none) = false :=
  ⟨rfl, rfl⟩

/-- Claim C8 amended: `run_all_detectors` completes exactly when every
detector returns normally, and the first raising detector aborts it with
that exception (the only recovery is the analysis-wide handler in the
HTTP layer, which fails the whole analysis). -/
theorem claim_C8_amended {E F : Type}
    (dS : List Char → Except E F) (dT : List Char → Option String → Except E F)
    (dD dA : List Char → Except E F) (dM : Option Rat → Option Rat → Except E F)
    (html : List Char) (url : Option String) (price mrp : Option Rat) :
    exceptOk (run_all_detectors_gen dS dT dD dA dM html url price mrp) =
      (exceptOk (dS html) && exceptOk (dT html url) && exceptOk (dD html) &&
        exceptOk (dA html) && exceptOk (dM price mrp)) ∧
    (∀ e : E, dS html = Except.error e →
      run_all_detectors_gen dS dT dD dA dM html url price mrp = Except.error e) := by
  constructor
  · unfold run_all_detectors_gen
    cases dS html <;> cases dT html url <;> cases dD html <;> cases dA html <;>
      cases dM price mrp <;> rfl
  · intro e he
    unfold run_all_detectors_gen
    rw [he]
    rfl

/-- Witness for claim C8 amended at concrete detectors. -/
theorem claim_C8_amended_witness :
    exceptOk (run_all_detectors_gen (E := String) (F := Bool)
        (fun _ => Except.ok true) (fun _ _ => Except.error "boom")
        (fun _ => Except.ok true) (fun _ => Except.ok true)
        (fun _ _ => Except.ok true) (lc "p") none none none) =
      (exceptOk (Except.ok (ε := String) true) && exceptOk (Except.error (α := Bool) "boom") &&
        exceptOk (Except.ok (ε := String) true) && exceptOk (Except.ok (ε := String) true) &&
        exceptOk (Except.ok (ε := String) true)) ∧
    run_all_detectors_gen (E := String) (F := Bool)
        (fun _ => Except.error "first") (fun _ _ => Except.ok true)
        (fun _ => Except.ok true) (fun _ => Except.ok true)
        (fun _ _ => Except.ok true) (lc "p") none none none = Except.error "first" :=
  ⟨(claim_C8_amended (fun _ => Except.ok true) (fun _ _ => Except.error "boom")
      (fun _ => Except.ok true) (fun _ => Except.ok true)
      (fun _ _ => Except.ok true) (lc "p") none none none).1,
   (claim_C8_amended (fun _ => Except.error "first") (fun _ _ => Except.ok true)
      (fun _ => Except.ok true) (fun _ => Except.ok true)
      (fun _ _ => Except.ok true) (lc "p") none none none).2 "first" rfl⟩

/-! ### Claim C9: end-to-end scoring example -/

/-- Claim C9 counterexample: the page with a checked Extended Warranty
checkbox and an increasing countdown yields exactly the findings
fake_timer and pre_ticked_addon, but the raw score is not 5 and the
grade is not D (`detect_pre_ticked_addons` reports severity low, so the
pre-ticked finding contributes 2 x 0.5, not 2 x 1.0). -/
theorem claim_C9_counterexample :
    (detect_all c9Soup c9Timer).map Violation.vtype = ["fake_timer", "pre_ticked_addon"] ∧
    (calculate_trust_score (detect_all c9Soup c9Timer)).score ≠ 5 ∧
    (calculate_trust_score (detect_all c9Soup c9Timer)).grade ≠ "D" := by
  refine ⟨by decide, by decide, by decide⟩

/-- Claim C9 amended: the same page yields exactly the findings
fake_timer (severity high, contributing 2 x 1.5) and pre_ticked_addon
(severity low, contributing 2 x 0.5), for a raw score of 4 and grade C. -/
theorem claim_C9_amended :
    (detect_all c9Soup c9Timer).map (fun v => (v.vtype, v.severity)) =
      [("fake_timer", "high"), ("pre_ticked_addon", "low")] ∧
    (calculate_trust_score (detect_all c9Soup c9Timer)).score = 4 ∧
    (calculate_trust_score (detect_all c9Soup c9Timer)).grade = "C" := by
  refine ⟨by decide, by decide, by decide⟩

/-! ### Claim C4: structured-data priority in price resolution -/

/-- Claim C4 counterexample: on a page whose structured data block is
`{price: 1599, maxPrice: 3490}` but whose visible text contains
`MRP: ₹9999`, the resolved MRP is 9999, not 3490 - the textual MRP
pattern has priority over the structured `maxPrice`. -/
theorem claim_C4_counterexample :
    detect_selling_price c4CounterPg = some 1599 ∧
    detect_mrp_onsite c4CounterPg = some 9999 ∧
    (extract_price_and_mrp_detailed c4CounterPg).map ExtractResult.mrp = some (some 9999) ∧
    (9999 : Rat) ≠ 3490 := by
  refine ⟨by decide, by decide, by decide, by decide⟩

/-- Claim C4 amended: a structured-data price is never overridden by
generic currency-regex matches (the regex scan runs only when no
structured or site-selector price exists), so on a page without
site-selector matches the resolved selling price is the structured one;
the structured `maxPrice` becomes the MRP only when no textual MRP
pattern and no site-selector MRP matched; on the example page whose only
price evidence is the structured block, the result is (1599, 3490). -/
theorem claim_C4_amended :
    (∀ (pg : PricePage) (p : Rat),
      containsSub (lc "amazon") (lc pg.domain) = false →
      containsSub (lc "flipkart") (lc pg.domain) = false →
      pg.jsonLdPrice = some p → p ≠ 0 →
      detect_selling_price pg = some p) ∧
    (∀ (pg : PricePage) (m : Rat),
      mrpTextScan (pg.pageText.map Char.toLower) = none →
      containsSub (lc "amazon") (lc pg.domain) = false →
      containsSub (lc "flipkart") (lc pg.domain) = false →
      pg.jsonLdMaxPrice = some m → m ≠ 0 →
      detect_mrp_onsite pg = some m) ∧
    (extract_price_and_mrp_detailed c4StructPg).map ExtractResult.selling_price =
      some (some 1599) ∧
    (extract_price_and_mrp_detailed c4StructPg).map ExtractResult.mrp = some (some 3490) := by
  refine ⟨?_, ?_, by decide, by decide⟩
  · intro pg p hna hnf hjp hp0
    unfold detect_selling_price
    rw [hna, hnf, hjp]
    simp only [Bool.false_eq_true, if_false]
    rw [if_neg (by simp [hp0] : ¬ ((p == 0) = true))]
    simp [pyMinList]
  · intro pg m hscan hna hnf hjm hm0
    unfold detect_mrp_onsite
    rw [hscan, hna, hnf, hjm]
    simp only [Bool.false_eq_true, if_false]
    rw [if_neg (by simp [hm0] : ¬ ((m == 0) = true))]

/-- Witness for claim C4 amended: the universal parts applied to the
concrete structured-data page. -/
theorem claim_C4_amended_witness :
    detect_selling_price c4StructPg = some 1599 ∧
    detect_mrp_onsite c4StructPg = some 3490 :=
  ⟨claim_C4_amended.1 c4StructPg 1599 (by decide) (by decide) rfl (by decide),
   claim_C4_amended.2.1 c4StructPg 3490 (by decide) (by decide) (by decide) rfl (by decide)⟩

/-! ### Claim C5: the 30% validation rule -/

/-- Claim C5: the 30% validation rule the spec (and the repository's own
test suite) describe does not exist in `price_extractor.py`: on an
amazon page whose price element reads ₹500 while the text lists
`MRP: ₹3,490`, the extractor returns selling price 500 with MRP 3490,
i.e. a selling price below 30% of the MRP, without falling back. -/
theorem claim_C5_missing_validation :
    (extract_price_and_mrp_detailed c5FailPg).map ExtractResult.selling_price =
      some (some 500) ∧
    (extract_price_and_mrp_detailed c5FailPg).map ExtractResult.mrp = some (some 3490) ∧
    (500 : Rat) < (3 / 10) * 3490 := by
  refine ⟨by decide, by decide, by decide⟩

/-! ### Claim C2: scarcity detector lemmas -/

theorem hasStockKw_drop {t : List Char} {i : Nat} (h : hasStockKw (t.drop i)) :
    hasStockKw t := by
  rcases h with h | h | h
  · exact Or.inl (containsSub_drop h)
  · exact Or.inr (Or.inl (containsSub_drop h))
  · exact Or.inr (Or.inr (containsSub_drop h))

theorem containsSub_of_litPref {s t : List Char} (h : litPref s t = true) :
    containsSub s t = true :=
  containsSub_of_litPref_drop (i := 0) (by simpa using h)

theorem stockTailP_kw {k : RxCont} {t : List Char} {n : Nat}
    (h : stockTailP k t = some n) : hasStockKw t := by
  obtain ⟨q, hq, hqk⟩ := altP_some h
  simp only [List.mem_cons, List.not_mem_nil, or_false] at hq
  rcases hq with rfl | rfl | rfl
  · exact Or.inl (containsSub_of_litPref (litP_some hqk).1)
  · exact Or.inr (Or.inl (containsSub_of_litPref (litP_some hqk).1))
  · obtain ⟨-, r1, h1⟩ := litP_some hqk
    obtain ⟨d1, r2, h2⟩ := repP_some h1
    have h3 := (litP_some h2).1
    exact Or.inr (Or.inr (containsSub_drop (containsSub_of_litPref_drop h3)))

theorem scP1_kw {k : RxCont} {t : List Char} {n : Nat}
    (h : scP1 k t = some n) : hasStockKw t := by
  unfold scP1 seqP at h
  obtain ⟨-, r1, h1⟩ := litP_some h
  obtain ⟨d1, r2, h2⟩ := repP_some h1
  obtain ⟨d2, r3, h3⟩ := repP_some h2
  obtain ⟨d3, r4, h4⟩ := repP_some h3
  exact hasStockKw_drop (hasStockKw_drop (hasStockKw_drop (hasStockKw_drop
    (stockTailP_kw h4))))

theorem scP2_kw {k : RxCont} {t : List Char} {n : Nat}
    (h : scP2 k t = some n) : hasStockKw t := by
  unfold scP2 seqP at h
  obtain ⟨d1, r1, h1⟩ := repP_some h
  obtain ⟨d2, r2, h2⟩ := repP_some h1
  exact hasStockKw_drop (hasStockKw_drop (stockTailP_kw h2))

theorem scP3_kw {k : RxCont} {t : List Char} {n : Nat}
    (h : scP3 k t = some n) : hasStockKw t := by
  unfold scP3 seqP at h
  obtain ⟨-, r1, h1⟩ := litP_some h
  obtain ⟨d1, r2, h2⟩ := repP_some h1
  exact hasStockKw_drop (hasStockKw_drop (stockTailP_kw h2))

theorem scP5_selling {k : RxCont} {t : List Char} {n : Nat}
    (h : scP5 k t = some n) : containsSub (lc "selling") t = true := by
  unfold scP5 seqP at h
  exact containsSub_of_litPref (litP_some h).1

theorem scP7_stock {k : RxCont} {t : List Char} {n : Nat}
    (h : scP7 k t = some n) : containsSub (lc "stock") t = true := by
  unfold scP7 seqP at h
  obtain ⟨-, r1, h1⟩ := litP_some h
  obtain ⟨d1, r2, h2⟩ := repP_some h1
  have h3 := (litP_some h2).1
  exact containsSub_drop (containsSub_of_litPref_drop h3)

theorem scP8_kw {k : RxCont} {t : List Char} {n : Nat}
    (h : scP8 k t = some n) : hasStockKw t := by
  unfold scP8 seqP at h
  obtain ⟨d1, r1, h1⟩ := repP_some h
  obtain ⟨d2, r2, h2⟩ := repP_some h1
  obtain ⟨q, hq, hqk⟩ := altP_some h2
  simp only [List.mem_cons, List.not_mem_nil, or_false] at hq
  rcases hq with rfl | rfl
  · obtain ⟨-, r3, h3⟩ := litP_some hqk
    obtain ⟨d3, r4, h4⟩ := repP_some h3
    obtain ⟨d4, r5, h5⟩ := repP_some h4
    obtain ⟨q2, hq2, hq2k⟩ := altP_some h5
    simp only [List.mem_cons, List.not_mem_nil, or_false] at hq2
    have hkw : hasStockKw (List.drop d4 (List.drop d3 (List.drop (lc "item").length
        (List.drop d2 (List.drop d1 t))))) := by
      rcases hq2 with rfl | rfl
      · exact Or.inl (containsSub_of_litPref (litP_some hq2k).1)
      · exact Or.inr (Or.inl (containsSub_of_litPref (litP_some hq2k).1))
    exact hasStockKw_drop (hasStockKw_drop (hasStockKw_drop (hasStockKw_drop
      (hasStockKw_drop hkw))))
  · obtain ⟨-, r3, h3⟩ := litP_some hqk
    obtain ⟨d3, r4, h4⟩ := repP_some h3
    obtain ⟨d4, r5, h5⟩ := repP_some h4
    obtain ⟨q2, hq2, hq2k⟩ := altP_some h5
    simp only [List.mem_cons, List.not_mem_nil, or_false] at hq2
    have hkw : hasStockKw (List.drop d4 (List.drop d3 (List.drop (lc "unit").length
        (List.drop d2 (List.drop d1 t))))) := by
      rcases hq2 with rfl | rfl
      · exact Or.inl (containsSub_of_litPref (litP_some hq2k).1)
      · exact Or.inr (Or.inl (containsSub_of_litPref (litP_some hq2k).1))
    exact hasStockKw_drop (hasStockKw_drop (hasStockKw_drop (hasStockKw_drop
      (hasStockKw_drop hkw))))

theorem searchP4Aux_core {prev : Option Char} {i : Nat} {t : List Char} {pr : Nat × Nat}
    (h : searchP4Aux prev i t = some pr) : ∃ d n, scP4core (t.drop d) = some n := by
  induction t generalizing prev i with
  | nil =>
    simp only [searchP4Aux] at h
    split at h
    · cases hc : scP4core [] with
      | none => rw [hc] at h; simp at h
      | some n => exact ⟨0, n, hc⟩
    · simp at h
  | cons c t ih =>
    simp only [searchP4Aux] at h
    split at h
    · next n hx =>
      split at hx
      · exact ⟨0, n, hx⟩
      · simp at hx
    · next hx => obtain ⟨d, n, hd⟩ := ih h; exact ⟨d + 1, n, by simpa using hd⟩

theorem scP4core_stock {t : List Char} {n : Nat}
    (h : scP4core t = some n) : containsSub (lc "stock") t = true := by
  unfold scP4core seqP at h
  obtain ⟨-, r1, h1⟩ := litP_some h
  obtain ⟨d1, r2, h2⟩ := repP_some h1
  have h3 := (litP_some h2).1
  exact containsSub_drop (containsSub_of_litPref_drop h3)

theorem searchP4_stock {t : List Char} {pr : Nat × Nat}
    (h : searchP4 t = some pr) : containsSub (lc "stock") t = true := by
  obtain ⟨d, n, hd⟩ := searchP4Aux_core h
  exact containsSub_drop (scP4core_stock hd)

/-! ### Claim C2: scarcity detector state lemmas -/

theorem scStep_ne (st : ScState) (mo : Option (List Char))
    (u : Option String → Option String) (h : st.1.isEmpty = false) :
    (scStep st mo u).1.isEmpty = false := by
  unfold scStep
  cases mo with
  | none => exact h
  | some m =>
    dsimp only
    split_ifs with hm
    · exact h
    · obtain ⟨l, c⟩ := st
      cases l <;> rfl

theorem scStepG_ne (st : ScState) (mo : Option (List Char)) (g : List Char → Bool)
    (u : Option String → Option String) (h : st.1.isEmpty = false) :
    (scStepG st mo g u).1.isEmpty = false := by
  unfold scStepG
  cases mo with
  | none => exact h
  | some m =>
    dsimp only
    split_ifs with hm
    · exact scStep_ne st (some m) u h
    · exact h

theorem scAfter1_ne (text : List Char) (st : ScState) (h : st.1.isEmpty = false) :
    (scAfter1 text st).1.isEmpty = false := by
  unfold scAfter1
  exact scStep_ne _ _ _ (scStepG_ne _ _ _ _ (scStepG_ne _ _ _ _ (scStepG_ne _ _ _ _
    (scStep_ne _ _ _ (scStep_ne _ _ _ (scStep_ne _ _ _ h))))))

/-! ### Claim C2: main theorems -/

theorem detect_scarcity_quantity_triggers (html : List Char)
    (h : (searchPat scP1 (html.map Char.toLower)).isSome = true) :
    (detect_scarcity html).detected = true := by
  obtain ⟨pr, hpr⟩ := Option.isSome_iff_exists.mp h
  obtain ⟨i, n⟩ := pr
  simp only [detect_scarcity]
  rw [hpr]
  simp only [foundStr, Option.map_some']
  have hne := scAfter1_ne (html.map Char.toLower)
    ([mstr (html.map Char.toLower) i n], some "high") (by rfl)
  simp [hne]

theorem detect_scarcity_no_stock (html : List Char)
    (h : noStockKw (html.map Char.toLower)) :
    (detect_scarcity html).detected = false := by
  obtain ⟨hleft, hrem, hstock, hsell⟩ := h
  have hkw : ¬ hasStockKw (html.map Char.toLower) := by
    rintro (hk | hk | hk) <;> simp_all
  have hs1 : searchPat scP1 (html.map Char.toLower) = none := by
    cases hx : searchPat scP1 (html.map Char.toLower) with
    | none => rfl
    | some pr =>
      obtain ⟨i, n⟩ := pr
      obtain ⟨d, hd⟩ := searchPat_some hx
      exact absurd (hasStockKw_drop (scP1_kw hd)) hkw
  have hs2 : searchPat scP2 (html.map Char.toLower) = none := by
    cases hx : searchPat scP2 (html.map Char.toLower) with
    | none => rfl
    | some pr =>
      obtain ⟨i, n⟩ := pr
      obtain ⟨d, hd⟩ := searchPat_some hx
      exact absurd (hasStockKw_drop (scP2_kw hd)) hkw
  have hs3 : searchPat scP3 (html.map Char.toLower) = none := by
    cases hx : searchPat scP3 (html.map Char.toLower) with
    | none => rfl
    | some pr =>
      obtain ⟨i, n⟩ := pr
      obtain ⟨d, hd⟩ := searchPat_some hx
      exact absurd (hasStockKw_drop (scP3_kw hd)) hkw
  have hs8 : searchPat scP8 (html.map Char.toLower) = none := by
    cases hx : searchPat scP8 (html.map Char.toLower) with
    | none => rfl
    | some pr =>
      obtain ⟨i, n⟩ := pr
      obtain ⟨d, hd⟩ := searchPat_some hx
      exact absurd (hasStockKw_drop (scP8_kw hd)) hkw
  have hs4 : searchP4 (html.map Char.toLower) = none := by
    cases hx : searchP4 (html.map Char.toLower) with
    | none => rfl
    | some pr => exact absurd (searchP4_stock hx) (by simp [hstock])
  have hs5 : searchPat scP5 (html.map Char.toLower) = none := by
    cases hx : searchPat scP5 (html.map Char.toLower) with
    | none => rfl
    | some pr =>
      obtain ⟨i, n⟩ := pr
      obtain ⟨d, hd⟩ := searchPat_some hx
      exact absurd (containsSub_drop (scP5_selling hd)) (by simp [hsell])
  have hs7 : searchPat scP7 (html.map Char.toLower) = none := by
    cases hx : searchPat scP7 (html.map Char.toLower) with
    | none => rfl
    | some pr =>
      obtain ⟨i, n⟩ := pr
      obtain ⟨d, hd⟩ := searchPat_some hx
      exact absurd (containsSub_drop (scP7_stock hd)) (by simp [hstock])
  have hafter : scAfter1 (html.map Char.toLower) ([], none) = ([], none) := by
    cases hx6 : searchPat scP6 (html.map Char.toLower) with
    | none =>
      unfold scAfter1
      rw [hs2, hs3, hs4, hs5, hx6, hs7, hs8]
      simp [foundStr, scStep, scStepG]
    | some pr =>
      obtain ⟨i, n⟩ := pr
      have g1 : containsSub (lc "left") (mstr (html.map Char.toLower) i n) = false := by
        cases hc : containsSub (lc "left") (mstr (html.map Char.toLower) i n) with
        | false => rfl
        | true => exact absurd (containsSub_mstr hc) (by simp [hleft])
      have g2 : containsSub (lc "remaining") (mstr (html.map Char.toLower) i n) = false := by
        cases hc : containsSub (lc "remaining") (mstr (html.map Char.toLower) i n) with
        | false => rfl
        | true => exact absurd (containsSub_mstr hc) (by simp [hrem])
      have g3 : containsSub (lc "stock") (mstr (html.map Char.toLower) i n) = false := by
        cases hc : containsSub (lc "stock") (mstr (html.map Char.toLower) i n) with
        | false => rfl
        | true => exact absurd (containsSub_mstr hc) (by simp [hstock])
      have hg : scGuard6 (mstr (html.map Char.toLower) i n) = false := by
        unfold scGuard6
        rw [g1, g2, g3]
        rfl
      unfold scAfter1
      rw [hs2, hs3, hs4, hs5, hx6, hs7, hs8]
      simp [foundStr, scStep, scStepG, hg]
  simp only [detect_scarcity]
  rw [hs1]
  simp only [foundStr, Option.map_none']
  simp [hafter]

/-- Claim C2 counterexample: the text
"only 2 left in stock few remaining" contains the explicit stock
quantity "only 2 left in stock", and the detector does trigger on it,
but with confidence medium, not high - the "few remaining" stage
overwrites the confidence unconditionally. -/
theorem claim_C2_counterexample :
    containsSub (lc "only 2 left in stock") (lc "only 2 left in stock few remaining") = true ∧
    (detect_scarcity (lc "only 2 left in stock few remaining")).detected = true ∧
    (detect_scarcity (lc "only 2 left in stock few remaining")).confidence = some "medium" ∧
    some "medium" ≠ some "high" := by
  refine ⟨by decide, by decide, by decide, by decide⟩

/-- Claim C2 amended: any text matching the quantity pattern
`only N left/remaining/in stock` triggers the detector;
"Only 2 left in stock" alone triggers with confidence high (a
co-occurring "few left/remaining/in stock" phrase downgrades the final
confidence to medium); and a text containing no stock-context marker
(left/remaining/stock/selling), such as "Only ₹499, hurry!", never
triggers. -/
theorem claim_C2_amended :
    (∀ html : List Char, (searchPat scP1 (html.map Char.toLower)).isSome = true →
      (detect_scarcity html).detected = true) ∧
    (detect_scarcity (lc "Only 2 left in stock")).detected = true ∧
    (detect_scarcity (lc "Only 2 left in stock")).confidence = some "high" ∧
    (∀ html : List Char, noStockKw (html.map Char.toLower) →
      (detect_scarcity html).detected = false) ∧
    (detect_scarcity (lc "Only ₹499, hurry!")).detected = false := by
  refine ⟨detect_scarcity_quantity_triggers, by decide, by decide,
    detect_scarcity_no_stock, by decide⟩

/-- Witness for claim C2 amended: both universal parts applied at fresh
concrete inputs. -/
theorem claim_C2_amended_witness :
    (detect_scarcity (lc "Wow: only 3 left today!")).detected = true ∧
    (detect_scarcity (lc "Only ₹99, be quick!")).detected = false :=
  ⟨claim_C2_amended.1 (lc "Wow: only 3 left today!") (by decide),
   claim_C2_amended.2.2.2.1 (lc "Only ₹99, be quick!")
     ⟨by decide, by decide, by decide, by decide⟩⟩
